import Mathlib

/-!
# Spherical Wavetable Navigator: sphere storage on external flash

A shallow embedding of `src/sphere_flash_io.c`.

* Machine integers are natural numbers; every conversion to a narrower C type is an explicit
  `% 2 ^ w` at the place where C performs it (function entry, assignment, 32-bit address sums).
* The program state is passed explicitly (`State`): flash contents, the Sphere Type Cache
  `sphere_types`, the two signature arrays, the enable bit of the interpolation-timer interrupt
  and a chronological log of the calls made to the interrupt and flash primitives.
* Constants, types and primitives that come from headers outside `src/` are fields of `Config`
  or are modelled from the specification; each such definition says so.
* A C call that does not return normally (array access outside `sphere_types`, a `uint8_t`
  loop whose bound can never be reached) yields `Except.error`.
-/

namespace SWN

/-! ## Data model -/

/-- Sphere provenance, `enum SphereTypes`. The declaration lives in a header outside `src/`;
the three members are the ones named in `sphere_flash_io.c` and listed by the specification
("enumeration {EMPTY, USER, FACTORY}"). -/
inductive SphereTypes where
  | SPHERE_TYPE_EMPTY
  | SPHERE_TYPE_USER
  | SPHERE_TYPE_FACTORY
  deriving DecidableEq

/-- Ways in which a call fails to return normally. -/
inductive Fault where
  | out_of_bounds
  | diverges
  deriving DecidableEq

/-- Calls to the external primitives, in the order they are issued. -/
inductive Event where
  | pause
  | resume
  | erase (addr : Nat)
  | write (addr len : Nat)
  | read (addr len : Nat)
  deriving DecidableEq

/-- Build-time constants and external lookups that `sphere_flash_io.c` takes from headers
which are not part of `src/` (`globals.h`, `sphere.h`, `external_flash_layout.h`,
`drivers/flash_S25FL127.h`). They are parameters of the embedding. -/
structure Config where
  /-- Number of sphere slots, the length of `sphere_types`. -/
  MAX_TOTAL_SPHERES : Nat
  /-- First flash sector reserved for wavetables. -/
  WT_SECTOR_START : Nat
  /-- Sector number to sector base address (a C function returning `uint32_t`). -/
  sFLASH_get_sector_addr : Nat → Nat
  /-- Number of bytes erased by one sector erase. -/
  SECTOR_SIZE : Nat
  /-- Edge length of the waveform cube. -/
  WT_DIM_SIZE : Nat
  /-- Stride between two waveforms on flash. -/
  SPHERE_WAVEFORM_SIZE : Nat
  /-- Size of the reserved name field in front of the samples. -/
  WT_NAME_MONITOR_CHARSIZE : Nat
  /-- Samples per waveform. -/
  WT_TABLELEN : Nat
  /-- Bytes per sample. -/
  BYTEDEPTH : Nat
  /-- The value of `sizeof(o_waveform)`. -/
  sizeof_o_waveform : Nat
  /-- The value of `offsetof(o_waveform, wave)`. -/
  offsetof_wave : Nat

/-- Program state. Arrays and byte buffers are functions from the index (or byte offset) to the
element; the declared length of an array is enforced where it is accessed. -/
structure State where
  /-- Byte stored at each flash address. -/
  flash : Nat → Nat
  /-- The Sphere Type Cache `sphere_types[MAX_TOTAL_SPHERES]`. -/
  sphere_types : Nat → SphereTypes
  /-- The array `char user_sphere_signature[4]`. -/
  user_sphere_signature : Nat → Nat
  /-- The array `char factory_sphere_signature[4]`. -/
  factory_sphere_signature : Nat → Nat
  /-- Whether the interpolation-timer interrupt (`WT_INTERP_TIM_number`) is enabled. -/
  irq_running : Bool
  /-- Primitive calls issued so far, oldest first. -/
  log : List Event

/-- Array or buffer store `f[i] = v`. -/
def upd {α : Type} (f : Nat → α) (i : Nat) (v : α) : Nat → α :=
  fun j => if j = i then v else f j

/-- Conversion of a C `int` value to `uint16_t`. -/
def toU16 (z : Int) : Nat := (z % 65536).toNat

/-- Conversion of a C `int` value to `uint8_t`. -/
def toU8 (z : Int) : Nat := (z % 256).toNat

/-- The constant `WT_SIZE = sizeof(o_waveform)*WT_DIM_SIZE*WT_DIM_SIZE*WT_DIM_SIZE`
(a `uint32_t`). -/
def WT_SIZE (cfg : Config) : Nat :=
  (cfg.sizeof_o_waveform * cfg.WT_DIM_SIZE * cfg.WT_DIM_SIZE * cfg.WT_DIM_SIZE) % 2 ^ 32

/-! ## External primitives -/

/-- Modelled from the spec: `pause_timer_IRQ` of `timekeeper.h` (not in `src/`), "pause the
real-time interrupt": the interrupt is disabled. -/
def pause_timer_IRQ (s : State) : State :=
  { s with irq_running := false, log := s.log ++ [Event.pause] }

/-- Modelled from the spec: `resume_timer_IRQ` of `timekeeper.h` (not in `src/`), "resume the
real-time interrupt": the interrupt is enabled. -/
def resume_timer_IRQ (s : State) : State :=
  { s with irq_running := true, log := s.log ++ [Event.resume] }

/-- Modelled from the spec: `sFLASH_erase_sector` of the flash driver (not in `src/`), "erase
the sector at the index's base address": the `SECTOR_SIZE` bytes starting at the sector base
`addr` become `0xFF`. -/
def sFLASH_erase_sector (cfg : Config) (s : State) (addr : Nat) : State :=
  { s with
    flash := fun a => if addr ≤ a ∧ a < addr + cfg.SECTOR_SIZE then 255 else s.flash a
    log := s.log ++ [Event.erase addr] }

/-- Modelled from the spec: `sFLASH_write_buffer` of the flash driver (not in `src/`),
"buffered write(buffer, address, length)" on cells that "can only transition one direction
without erase": byte `k` of the buffer is and-ed into the flash byte at `addr + k`. -/
def sFLASH_write_buffer (s : State) (buf : Nat → Nat) (addr len : Nat) : State :=
  { s with
    flash := fun a =>
      if addr ≤ a ∧ a < addr + len then s.flash a &&& (buf (a - addr) % 256) else s.flash a
    log := s.log ++ [Event.write addr len] }

/-- Modelled from the spec: `sFLASH_read_buffer` of the flash driver (not in `src/`),
"buffered read(buffer, address, length)": the first `len` bytes of the buffer receive the flash
bytes from `addr` on, the rest of the buffer is untouched. -/
def sFLASH_read_buffer (s : State) (buf : Nat → Nat) (addr len : Nat) : (Nat → Nat) × State :=
  (fun k => if k < len then s.flash (addr + k) else buf k,
   { s with log := s.log ++ [Event.read addr len] })

/-- Modelled from the spec: the clamp `_CLAMP_U8` of `math_util.h` (not in `src/`), "each of
x, y, z is independently clamped to [0, 2]", on `uint8_t` operands. -/
def _CLAMP_U8 (test low high : Nat) : Nat :=
  let test := test % 256
  let low := low % 256
  let high := high % 256
  if test < low then low else if test > high then high else test

/-! ## `sphere_flash_io.c` -/

/-- The function `init_sphere_flash`. -/
def init_sphere_flash (s : State) : State :=
  let u := s.user_sphere_signature
  let u := upd u 0 85   -- 'U'
  let u := upd u 1 83   -- 'S'
  let u := upd u 2 49   -- '1'
  let u := upd u 3 0    -- NUL
  let f := s.factory_sphere_signature
  let f := upd f 0 70   -- 'F'
  let f := upd f 1 83   -- 'S'
  let f := upd f 2 49   -- '1'
  let f := upd f 3 0    -- NUL
  { s with user_sphere_signature := u, factory_sphere_signature := f }

/-- The function `get_wt_addr(uint16_t wt_num)`. -/
def get_wt_addr (cfg : Config) (wt_num : Nat) : Nat :=
  let wt_num := wt_num % 65536
  let wt_num := if wt_num ≥ cfg.MAX_TOTAL_SPHERES
    then toU16 ((cfg.MAX_TOTAL_SPHERES : Int) - 1) else wt_num
  cfg.sFLASH_get_sector_addr (cfg.WT_SECTOR_START + wt_num)

/-- The flash address computed by `load_extflash_wavetable` for its read, from the clamped
sphere base and the raw `uint8_t` coordinates. -/
def load_addr (cfg : Config) (base_addr x y z : Nat) : Nat :=
  let x := _CLAMP_U8 x 0 2
  let y := _CLAMP_U8 y 0 2
  let z := _CLAMP_U8 z 0 2
  let addr := (base_addr + 4
    + (x + y * cfg.WT_DIM_SIZE + z * cfg.WT_DIM_SIZE * cfg.WT_DIM_SIZE)
      * cfg.SPHERE_WAVEFORM_SIZE) % 2 ^ 32
  (addr + cfg.WT_NAME_MONITOR_CHARSIZE) % 2 ^ 32

/-- The function `load_extflash_wavetable(uint8_t wt_num, o_waveform *waveform, uint8_t x,
uint8_t y, uint8_t z)`. The argument `wave` is the byte contents of `waveform->wave` before the
call; the first component of the result is its contents after the call. -/
def load_extflash_wavetable (cfg : Config) (s : State) (wt_num : Nat) (wave : Nat → Nat)
    (x y z : Nat) : (Nat → Nat) × State :=
  let wt_num := wt_num % 256
  let base_addr := get_wt_addr cfg wt_num
  let addr := load_addr cfg base_addr x y z
  sFLASH_read_buffer s wave addr (cfg.WT_TABLELEN * cfg.BYTEDEPTH)

/-- The function `save_sphere_to_flash(uint8_t wt_num, enum SphereTypes sphere_type,
int16_t *sphere_data)`. The argument `sphere_data` is the byte contents of the payload
buffer. -/
def save_sphere_to_flash (cfg : Config) (s : State) (wt_num : Nat) (sphere_type : SphereTypes)
    (sphere_data : Nat → Nat) : Except Fault State :=
  let wt_num := wt_num % 256
  let base_addr := get_wt_addr cfg wt_num
  let s := pause_timer_IRQ s
  let s := sFLASH_erase_sector cfg s base_addr
  let sz := 4
  let signed : Option State :=
    if sphere_type = SphereTypes.SPHERE_TYPE_USER then
      some (sFLASH_write_buffer s s.user_sphere_signature base_addr sz)
    else if sphere_type = SphereTypes.SPHERE_TYPE_FACTORY then
      some (sFLASH_write_buffer s s.factory_sphere_signature base_addr sz)
    else none
  match signed with
  | none => Except.ok s   -- return; //error, bad sphere_type
  | some s =>
    let base_addr := (base_addr + sz) % 2 ^ 32
    let s := sFLASH_write_buffer s sphere_data base_addr (WT_SIZE cfg)
    let s := resume_timer_IRQ s
    if wt_num < cfg.MAX_TOTAL_SPHERES then
      Except.ok { s with sphere_types := upd s.sphere_types wt_num sphere_type }
    else Except.error Fault.out_of_bounds

/-- The signature comparison `read_data[0..3] == signature[0..3]`. -/
def sig_match (read_data sig : Nat → Nat) : Bool :=
  read_data 0 = sig 0 && read_data 1 = sig 1 && read_data 2 = sig 2 && read_data 3 = sig 3

/-- The function `read_spheretype(uint32_t wt_num)`. The local `read_data` is filled entirely
by the 4-byte read before it is examined. -/
def read_spheretype (cfg : Config) (s : State) (wt_num : Nat) : SphereTypes × State :=
  let wt_num := wt_num % 2 ^ 32
  let addr := get_wt_addr cfg wt_num
  let s := pause_timer_IRQ s
  let sz := 4
  let r := sFLASH_read_buffer s (fun _ => 0) addr sz
  let read_data := r.1
  let s := resume_timer_IRQ r.2
  if sig_match read_data s.user_sphere_signature then
    (SphereTypes.SPHERE_TYPE_USER, s)
  else if sig_match read_data s.factory_sphere_signature then
    (SphereTypes.SPHERE_TYPE_FACTORY, s)
  else
    (SphereTypes.SPHERE_TYPE_EMPTY, s)

/-- A loop `for (i = 0; i < bound; i++) body` over a `uint8_t` counter, started at `i` with
`fuel` tests of the loop condition left. -/
def for_u8 (bound : Nat) (body : Nat → State → State) : Nat → Nat → State → Except Fault State
  | 0, _, _ => Except.error Fault.diverges
  | fuel + 1, i, s =>
    if i < bound then for_u8 bound body fuel ((i + 1) % 256) (body i s) else Except.ok s

/-- Number of loop tests granted to a `uint8_t` loop: the counter has 256 values, so a loop
that passes the test 257 times has passed it for every value of the counter and never exits. -/
def U8_FUEL : Nat := 257

/-- One iteration of the loop of `quick_clear_user_spheres`. -/
def quick_clear_body (cfg : Config) (wt_num : Nat) (s : State) : State :=
  let sz := 4
  let addr := get_wt_addr cfg wt_num
  let r := sFLASH_read_buffer s (fun _ => 0) addr sz
  let read_data := r.1
  let s := r.2
  if s.sphere_types wt_num = SphereTypes.SPHERE_TYPE_USER
      ∨ sig_match read_data s.user_sphere_signature = true then
    let read_data := upd read_data 0 0
    let read_data := upd read_data 1 0
    let read_data := upd read_data 2 0
    let read_data := upd read_data 3 0
    let s := sFLASH_write_buffer s read_data addr sz
    { s with sphere_types := upd s.sphere_types wt_num SphereTypes.SPHERE_TYPE_EMPTY }
  else s

/-- The function `quick_clear_user_spheres`. -/
def quick_clear_user_spheres (cfg : Config) (s : State) : Except Fault State :=
  let s := pause_timer_IRQ s
  match for_u8 cfg.MAX_TOTAL_SPHERES (quick_clear_body cfg) U8_FUEL 0 s with
  | Except.error e => Except.error e
  | Except.ok s => Except.ok (resume_timer_IRQ s)

/-- One iteration of the loop of `read_all_spheretypes`. -/
def read_all_body (cfg : Config) (i : Nat) (s : State) : State :=
  let r := read_spheretype cfg s i
  { r.2 with sphere_types := upd r.2.sphere_types i r.1 }

/-- The function `read_all_spheretypes`. -/
def read_all_spheretypes (cfg : Config) (s : State) : Except Fault State :=
  for_u8 cfg.MAX_TOTAL_SPHERES (read_all_body cfg) U8_FUEL 0 s

/-- The function `is_sphere_filled(uint8_t wt_num)`. -/
def is_sphere_filled (cfg : Config) (s : State) (wt_num : Nat) : Except Fault Nat :=
  let wt_num := wt_num % 256
  if wt_num < cfg.MAX_TOTAL_SPHERES then
    if s.sphere_types wt_num ≠ SphereTypes.SPHERE_TYPE_EMPTY then Except.ok 1 else Except.ok 0
  else Except.error Fault.out_of_bounds

/-- The function `is_spheretype_factory(uint8_t wt_num)`. -/
def is_spheretype_factory (cfg : Config) (s : State) (wt_num : Nat) : Except Fault Nat :=
  let wt_num := wt_num % 256
  if wt_num < cfg.MAX_TOTAL_SPHERES then
    if s.sphere_types wt_num = SphereTypes.SPHERE_TYPE_FACTORY then Except.ok 1 else Except.ok 0
  else Except.error Fault.out_of_bounds

/-- The function `is_spheretype_user(uint8_t wt_num)`. -/
def is_spheretype_user (cfg : Config) (s : State) (wt_num : Nat) : Except Fault Nat :=
  let wt_num := wt_num % 256
  if wt_num < cfg.MAX_TOTAL_SPHERES then
    if s.sphere_types wt_num = SphereTypes.SPHERE_TYPE_USER then Except.ok 1 else Except.ok 0
  else Except.error Fault.out_of_bounds

/-- The function `is_factory_sphere0_present`. -/
def is_factory_sphere0_present (cfg : Config) (s : State) : Nat × State :=
  let r := read_spheretype cfg s 0
  if r.1 = SphereTypes.SPHERE_TYPE_FACTORY then (1, r.2) else (0, r.2)

/-! ## Derived notions used in the statements -/

/-- The classification that `read_spheretype` returns, without the state. -/
def classify (cfg : Config) (s : State) (wt_num : Nat) : SphereTypes :=
  (read_spheretype cfg s wt_num).1

/-- Byte `k` of the sample array of waveform number `w` in a payload buffer holding an array
of `o_waveform`. -/
def payload_sample_byte (cfg : Config) (sphere_data : Nat → Nat) (w k : Nat) : Nat :=
  sphere_data (w * cfg.sizeof_o_waveform + cfg.offsetof_wave + k) % 256

/-- The four flash bytes at `a` are exactly `b0 b1 b2 b3`. -/
def sig_at (flash : Nat → Nat) (a b0 b1 b2 b3 : Nat) : Prop :=
  flash a = b0 ∧ flash (a + 1) = b1 ∧ flash (a + 2) = b2 ∧ flash (a + 3) = b3

instance sig_at_decidable (flash : Nat → Nat) (a b0 b1 b2 b3 : Nat) :
    Decidable (sig_at flash a b0 b1 b2 b3) := by
  unfold sig_at
  infer_instance

/-- Flash contents left by a `save_sphere_to_flash` with a valid type: erase of the sector at
`b`, signature `sig` at `b`, payload at `(b + 4) % 2 ^ 32`. -/
def saved_flash (cfg : Config) (flash sig sphere_data : Nat → Nat) (b : Nat) : Nat → Nat :=
  fun a =>
    let f1 : Nat → Nat := fun a => if b ≤ a ∧ a < b + cfg.SECTOR_SIZE then 255 else flash a
    let f2 : Nat → Nat := fun a => if b ≤ a ∧ a < b + 4 then f1 a &&& (sig (a - b) % 256) else f1 a
    if (b + 4) % 2 ^ 32 ≤ a ∧ a < (b + 4) % 2 ^ 32 + WT_SIZE cfg then
      f2 a &&& (sphere_data (a - (b + 4) % 2 ^ 32) % 256)
    else f2 a

/-- The signature array that `save_sphere_to_flash` writes for a type. -/
def signature_of (s : State) (t : SphereTypes) : Nat → Nat :=
  if t = SphereTypes.SPHERE_TYPE_USER then s.user_sphere_signature
  else s.factory_sphere_signature

/-! ## Concrete configuration and states on which the definitions are evaluated -/

/-- A concrete instance of `Config` on which the definitions are evaluated: uniform 64 KiB
sectors, 120 sphere slots from sector 16 on, a 3×3×3 cube of waveforms of 512 two-byte samples,
each behind a 16-byte name field. -/
def sampleConfig : Config where
  MAX_TOTAL_SPHERES := 120
  WT_SECTOR_START := 16
  sFLASH_get_sector_addr := fun n => (n * 65536) % 2 ^ 32
  SECTOR_SIZE := 65536
  WT_DIM_SIZE := 3
  SPHERE_WAVEFORM_SIZE := 1040
  WT_NAME_MONITOR_CHARSIZE := 16
  WT_TABLELEN := 512
  BYTEDEPTH := 2
  sizeof_o_waveform := 1040
  offsetof_wave := 16

/-- Power-on state over fully erased flash: every flash byte is `0xFF`, the static arrays are
zero-initialised, the interpolation-timer interrupt runs. -/
def erasedState : State where
  flash := fun _ => 255
  sphere_types := fun _ => SphereTypes.SPHERE_TYPE_EMPTY
  user_sphere_signature := fun _ => 0
  factory_sphere_signature := fun _ => 0
  irq_running := true
  log := []

/-- Power-on state whose flash holds the bytes `'U','S','1',0` at address `1048576` (the base
of sector 16, sphere 0 of `sampleConfig`) and `0xFF` everywhere else. -/
def userSphere0State : State :=
  { erasedState with
    flash := fun a =>
      if a = 1048576 then 85 else if a = 1048577 then 83 else if a = 1048578 then 49
      else if a = 1048579 then 0 else 255 }

/-- A payload buffer whose byte at offset `k` is `k % 251`. -/
def rampPayload : Nat → Nat := fun k => k % 251

/-- A flash image whose byte at address `a` is the low byte of `a / 1024`. -/
def stripedState : State :=
  { erasedState with flash := fun a => (a / 1024) % 256 }

/-! ## Layout notions used in the statements -/

/-- Base address of the sector of sphere `i`, as the flash adapter reports it. -/
def sector_base (cfg : Config) (i : Nat) : Nat :=
  cfg.sFLASH_get_sector_addr (cfg.WT_SECTOR_START + i)

/-- The sectors of two different valid spheres do not overlap. -/
def sectors_disjoint (cfg : Config) : Prop :=
  ∀ i j, i < cfg.MAX_TOTAL_SPHERES → j < cfg.MAX_TOTAL_SPHERES → i ≠ j →
    sector_base cfg i + cfg.SECTOR_SIZE ≤ sector_base cfg j
      ∨ sector_base cfg j + cfg.SECTOR_SIZE ≤ sector_base cfg i

/-- The flash adapter's lookup is strictly increasing on the wavetable sectors. -/
def sector_addr_increasing (cfg : Config) : Prop :=
  ∀ m n, cfg.WT_SECTOR_START ≤ m → m < n →
    n < cfg.WT_SECTOR_START + cfg.MAX_TOTAL_SPHERES →
    cfg.sFLASH_get_sector_addr m < cfg.sFLASH_get_sector_addr n

/-- The test made by `quick_clear_user_spheres` for index `j` in state `s`: the cache entry is
USER, or the four flash bytes at the resolved address match `user_sphere_signature`. -/
def clear_cond (cfg : Config) (s : State) (j : Nat) : Prop :=
  s.sphere_types j = SphereTypes.SPHERE_TYPE_USER
    ∨ sig_match (fun k => s.flash (get_wt_addr cfg j + k)) s.user_sphere_signature = true

instance clear_cond_decidable (cfg : Config) (s : State) (j : Nat) :
    Decidable (clear_cond cfg s j) := by
  unfold clear_cond
  infer_instance

/-- Address `a` lies in the four signature bytes that start at `b`. -/
def in_signature (b a : Nat) : Prop := b ≤ a ∧ a < b + 4

instance in_signature_decidable (b a : Nat) : Decidable (in_signature b a) := by
  unfold in_signature
  infer_instance

/-- Sphere `i` counts as a user sphere for the bulk clear: its cache entry is USER or the four
bytes at its sector base are the USER tag `'U','S','1',0`. -/
def marked_user (cfg : Config) (s : State) (i : Nat) : Prop :=
  s.sphere_types i = SphereTypes.SPHERE_TYPE_USER ∨ sig_at s.flash (sector_base cfg i) 85 83 49 0

instance marked_user_decidable (cfg : Config) (s : State) (i : Nat) :
    Decidable (marked_user cfg s i) := by
  unfold marked_user
  infer_instance

/-- Power-on state whose flash holds the bytes `'F','S','1',0` at address `1048576` (sphere 0
of `sampleConfig`) while the cache entry of index 0 says USER. -/
def staleFactoryState : State :=
  { erasedState with
    flash := fun a =>
      if a = 1048576 then 70 else if a = 1048577 then 83 else if a = 1048578 then 49
      else if a = 1048579 then 0 else 255
    sphere_types := fun j =>
      if j = 0 then SphereTypes.SPHERE_TYPE_USER else SphereTypes.SPHERE_TYPE_EMPTY }

/-- Power-on state whose flash holds the bytes `'F','S','1',0` at address `1048576` (sphere 0
of `sampleConfig`) and whose cache entry of index 0 says FACTORY. -/
def factorySphere0State : State :=
  { staleFactoryState with
    sphere_types := fun j =>
      if j = 0 then SphereTypes.SPHERE_TYPE_FACTORY else SphereTypes.SPHERE_TYPE_EMPTY }

/-! ## Notions on the log of primitive calls -/

/-- Whether an event is a transaction on the flash bus (erase, write or read). -/
def is_flash_event : Event → Bool
  | Event.pause => false
  | Event.resume => false
  | Event.erase _ => true
  | Event.write _ _ => true
  | Event.read _ _ => true

/-- Replay of a sequence of primitive calls from the interrupt state `running`: true when every
flash transaction in it is issued while the interrupt is paused. -/
def flash_only_while_paused : Bool → List Event → Bool
  | _, [] => true
  | _, Event.pause :: l => flash_only_while_paused false l
  | _, Event.resume :: l => flash_only_while_paused true l
  | running, Event.erase _ :: l => !running && flash_only_while_paused running l
  | running, Event.write _ _ :: l => !running && flash_only_while_paused running l
  | running, Event.read _ _ :: l => !running && flash_only_while_paused running l

/-! ## `preset_manager_selbus.c` -/

/-- The anonymous enum of `queued_preset_action`. -/
inductive PresetAction where
  | NO_PRESET_ACTION
  | STORE_PRESET
  | RECALL_PRESET
  deriving DecidableEq

/-- Calls made to the preset manager (`preset_manager.h`, not in `src/`), oldest first:
`check_preset_filled` with its answer, `store_preset_from_active`,
`recall_preset_into_active`. -/
inductive PresetCall where
  | checked (preset_num : Nat) (filled : Bool)
  | stored (preset_num : Nat)
  | recalled (preset_num : Nat)
  deriving DecidableEq

/-- The globals of `preset_manager_selbus.c`, with the calls made to the preset manager. The
preset manager itself is outside `src/`; its functions are taken not to touch the queue. -/
structure SelBus where
  /-- The global `uint32_t queued_preset_num`. -/
  queued_preset_num : Nat
  /-- The global `queued_preset_action`. -/
  queued_preset_action : PresetAction
  /-- Calls made to the preset manager so far, oldest first. -/
  calls : List PresetCall

/-- The constant `SAVE_PRESETS_ENABLED`. -/
def SAVE_PRESETS_ENABLED : Nat := 0

/-- The initial values of the globals; `MAX_PRESETS` comes from a header outside `src/`. -/
def selbus_initial (MAX_PRESETS : Nat) : SelBus where
  queued_preset_num := (MAX_PRESETS + 1) % 2 ^ 32
  queued_preset_action := PresetAction.NO_PRESET_ACTION
  calls := []

/-- The function `check_sel_bus_event`. -/
def check_sel_bus_event (q : SelBus) : SelBus :=
  let q :=
    if q.queued_preset_action = PresetAction.STORE_PRESET then
      { q with
        queued_preset_action := PresetAction.NO_PRESET_ACTION
        calls := q.calls ++ [PresetCall.stored q.queued_preset_num] }
    else q
  if q.queued_preset_action = PresetAction.RECALL_PRESET then
    { q with
      queued_preset_action := PresetAction.NO_PRESET_ACTION
      calls := q.calls ++ [PresetCall.recalled q.queued_preset_num] }
  else q

/-- The function `queue_recall_preset(uint32_t preset_num)`. -/
def queue_recall_preset (q : SelBus) (preset_num : Nat) : SelBus :=
  { q with
    queued_preset_action := PresetAction.RECALL_PRESET
    queued_preset_num := preset_num % 2 ^ 32 }

/-- The function `queue_store_preset(uint32_t preset_num)`. -/
def queue_store_preset (q : SelBus) (preset_num : Nat) : SelBus :=
  { q with
    queued_preset_action := PresetAction.STORE_PRESET
    queued_preset_num := preset_num % 2 ^ 32 }

/-- The function `sel_bus_queue_recall_preset(uint8_t preset_num)`. The argument
`check_preset_filled` is the answer the preset manager gives at this call for each preset
number. -/
def sel_bus_queue_recall_preset (MAX_PRESETS : Nat) (check_preset_filled : Nat → Bool)
    (q : SelBus) (preset_num : Nat) : SelBus :=
  let preset_num := preset_num % 256
  if preset_num ≥ MAX_PRESETS then q
  else
    let filled := check_preset_filled preset_num
    let q := { q with calls := q.calls ++ [PresetCall.checked preset_num filled] }
    if !filled then q
    else queue_recall_preset q preset_num

/-- The function `sel_bus_queue_save_preset(uint8_t preset_num)`. -/
def sel_bus_queue_save_preset (MAX_PRESETS : Nat) (q : SelBus) (preset_num : Nat) : SelBus :=
  let preset_num := preset_num % 256
  if SAVE_PRESETS_ENABLED = 0 then q
  else if preset_num ≥ MAX_PRESETS then q
  else queue_store_preset q preset_num

/-- One call of the select-bus interface. -/
inductive SelBusCall where
  | check_event
  | queue_recall (preset_num : Nat) (check_preset_filled : Nat → Bool)
  | queue_save (preset_num : Nat)

/-- Effect of one call. -/
def selbus_step (MAX_PRESETS : Nat) (q : SelBus) : SelBusCall → SelBus
  | SelBusCall.check_event => check_sel_bus_event q
  | SelBusCall.queue_recall n f => sel_bus_queue_recall_preset MAX_PRESETS f q n
  | SelBusCall.queue_save n => sel_bus_queue_save_preset MAX_PRESETS q n

/-- Effect of a sequence of calls, first call first. -/
def selbus_run (MAX_PRESETS : Nat) (cs : List SelBusCall) (q : SelBus) : SelBus :=
  cs.foldl (selbus_step MAX_PRESETS) q

/-- The queue invariant: no store is queued, no store was ever dispatched, and a queued recall
carries a preset number below `MAX_PRESETS` for which `check_preset_filled` answered yes. -/
def selbus_inv (MAX_PRESETS : Nat) (q : SelBus) : Prop :=
  q.queued_preset_action ≠ PresetAction.STORE_PRESET ∧
  (∀ n, PresetCall.stored n ∉ q.calls) ∧
  (q.queued_preset_action = PresetAction.RECALL_PRESET →
    q.queued_preset_num < MAX_PRESETS ∧ PresetCall.checked q.queued_preset_num true ∈ q.calls)

/-! ## `quantz_scales.c`, over exact rationals -/

/-- The constant `NUM_QTZ_SCALES` (`quantz_scales.h`, not in `src/`), taken as the number of
rows that the initialisers of `num_qtz_steps` and `qtz_scales` list. -/
def NUM_QTZ_SCALES : Nat := 16

/-- The table `num_qtz_steps`. -/
def num_qtz_steps : List Nat :=
  [ 1,    -- NO QTZ
    7,    -- MAJOR
    7,    -- MINOR HARMONIC
    12,   -- SEMITONES
    5,    -- MAJOR_PENTATONIC
    5,    -- MINOR_PENTATONIC
    8,    -- OCTATONIC1
    8,    -- OCTATONIC2
    7,    -- LYDIAN
    7,    -- MIXOLYDIAN
    7,    -- DORIAN
    7,    -- LOCRIAN
    7,    -- AEOLIAN
    8,    -- BEBOP MAJOR
    8,    -- BEBOP MINOR
    7 ]   -- BLUES

/-- The table `qtz_scales`; each row lists the entries its initialiser gives, the remaining
entries of the C row are zero. The `float` constants are read as exact decimals. -/
def qtz_scales : List (List ℚ) :=
  [ -- NO QTZ
    [0],
    -- MAJOR
    [16.3516015625, 18.3540234375, 20.60171875, 21.8267578125, 24.4997265625, 27.50,
      30.8676953125],
    -- MINOR HARMONIC
    [16.3516015625, 18.3540234375, 19.4454296875, 21.8267578125, 24.4997265625, 25.9565625,
      30.8676953125],
    -- SEMITONES
    [16.3516015625, 17.32390625, 18.3540234375, 19.4454296875, 20.60171875, 21.8267578125,
      23.1246484375, 24.4997265625, 25.9565625, 27.50, 29.135234375, 30.8676953125],
    -- MAJOR_PENTATONIC
    [16.3516015625, 18.3540234375, 20.60171875, 24.4997265625, 27.50],
    -- MINOR_PENTATONIC
    [16.3516015625, 19.4454296875, 21.8267578125, 24.4997265625, 29.135234375],
    -- OCTATONIC 1 (whole half Diminished)
    [16.3516015625, 18.3540234375, 19.4454296875, 21.8267578125, 23.1246484375, 25.9565625,
      27.50, 30.8676953125],
    -- OCTATONIC2 (half whole Diminished)
    [16.3516015625, 17.32390625, 19.4454296875, 20.60171875, 23.1246484375, 24.4997265625,
      27.50, 29.135234375],
    -- LYDIAN
    [16.3516015625, 18.3540234375, 20.60171875, 23.1246484375, 24.4997265625, 27.50,
      30.8676953125],
    -- MIXOLYDIAN
    [16.3516015625, 18.3540234375, 20.60171875, 21.8267578125, 24.4997265625, 27.50,
      29.135234375],
    -- DORIAN
    [16.3516015625, 18.3540234375, 19.4454296875, 21.8267578125, 24.4997265625, 27.50,
      29.135234375],
    -- LOCRIAN
    [16.3516015625, 17.32390625, 19.4454296875, 21.8267578125, 23.1246484375, 25.9565625,
      29.135234375],
    -- AEOLIAN
    [16.3516015625, 18.3540234375, 19.4454296875, 21.8267578125, 24.4997265625, 25.9565625,
      29.135234375],
    -- BEBOP MAJOR
    [16.3516015625, 18.3540234375, 20.60171875, 21.8267578125, 24.4997265625, 25.9565625,
      27.50, 30.8676953125],
    -- BEBOP MINOR
    [16.3516015625, 18.3540234375, 19.4454296875, 20.60171875, 21.8267578125, 24.4997265625,
      27.50, 29.135234375],
    -- BLUES
    [16.3516015625, 18.3540234375, 19.4454296875, 21.8267578125, 24.4997265625, 25.9565625,
      30.8676953125] ]

/-- The element `num_qtz_steps[i]`. -/
def num_qtz_steps_at (i : Nat) : Nat := num_qtz_steps.getD i 0

/-- The element `qtz_scales[i][j]`. -/
def qtz_scales_at (i j : Nat) : ℚ := (qtz_scales.getD i []).getD j 0

/-- The store `qtz_scale_midpt[i][j] = v`. -/
def upd2 (m : Nat → Nat → ℚ) (i j : Nat) (v : ℚ) : Nat → Nat → ℚ :=
  fun i' j' => if i' = i ∧ j' = j then v else m i' j'

/-- The body of the outer loop of `init_quantz_scales` for scale `i`. Every entry of
`num_qtz_steps` is at least 1, so `num_qtz_steps[i]-1` is computed without going below 0. -/
def init_quantz_scale_row (i : Nat) (qtz_scale_midpt : Nat → Nat → ℚ) : Nat → Nat → ℚ :=
  let m := (List.range (num_qtz_steps_at i - 1)).foldl
    (fun m j => upd2 m i j ((qtz_scales_at i j + qtz_scales_at i (j + 1)) / 2))
    qtz_scale_midpt
  -- last midpoint is between last note and an octave above the first note
  upd2 m i (num_qtz_steps_at i - 1)
    ((qtz_scales_at i (num_qtz_steps_at i - 1) + qtz_scales_at i 0 * 2) / 2)

/-- The function `init_quantz_scales`, from the previous contents of `qtz_scale_midpt` to its
contents at return. -/
def init_quantz_scales (qtz_scale_midpt : Nat → Nat → ℚ) : Nat → Nat → ℚ :=
  (List.range NUM_QTZ_SCALES).foldl (fun m i => init_quantz_scale_row i m) qtz_scale_midpt

/-! ## Basic facts -/

@[simp] theorem upd_same {α : Type} (f : Nat → α) (i : Nat) (v : α) : upd f i v i = v := by
  simp [upd]

theorem upd_other {α : Type} (f : Nat → α) (i j : Nat) (v : α) (h : j ≠ i) :
    upd f i v j = f j := by
  simp [upd, h]

theorem and_255 (v : Nat) : 255 &&& (v % 256) = v % 256 := by
  have h := Nat.and_pow_two_sub_one_eq_mod (v % 256) 8
  rw [Nat.land_comm] at h
  simpa using h

theorem get_wt_addr_valid (cfg : Config) (n : Nat) (h16 : n < 65536)
    (h : n < cfg.MAX_TOTAL_SPHERES) :
    get_wt_addr cfg n = cfg.sFLASH_get_sector_addr (cfg.WT_SECTOR_START + n) := by
  unfold get_wt_addr
  have h1 : n % 65536 = n := Nat.mod_eq_of_lt h16
  simp only [h1, ge_iff_le]
  rw [if_neg (by omega)]

theorem get_wt_addr_clamped (cfg : Config) (n : Nat)
    (h : cfg.MAX_TOTAL_SPHERES ≤ n % 65536) :
    get_wt_addr cfg n = cfg.sFLASH_get_sector_addr
      (cfg.WT_SECTOR_START + toU16 ((cfg.MAX_TOTAL_SPHERES : Int) - 1)) := by
  unfold get_wt_addr
  simp only [ge_iff_le]
  rw [if_pos h]

theorem get_wt_addr_last (cfg : Config) (h : cfg.MAX_TOTAL_SPHERES ≤ 65535) :
    get_wt_addr cfg (cfg.MAX_TOTAL_SPHERES - 1) = cfg.sFLASH_get_sector_addr
      (cfg.WT_SECTOR_START + toU16 ((cfg.MAX_TOTAL_SPHERES : Int) - 1)) := by
  by_cases h0 : cfg.MAX_TOTAL_SPHERES = 0
  · exact get_wt_addr_clamped cfg _ (by omega)
  · rw [get_wt_addr_valid cfg _ (by omega) (by omega)]
    congr 2
    unfold toU16
    omega

/-! ## The address resolver -/

/-- C8: `get_wt_addr` clamps every 16-bit index at or above `MAX_TOTAL_SPHERES` to the address
of index `MAX_TOTAL_SPHERES - 1`, and maps every 16-bit index below `MAX_TOTAL_SPHERES` to the
flash adapter's address of sector `WT_SECTOR_START + n`. -/
theorem get_wt_addr_index_clamping (cfg : Config) :
    (∀ n, n < 65536 → cfg.MAX_TOTAL_SPHERES ≤ n →
      get_wt_addr cfg n = get_wt_addr cfg (cfg.MAX_TOTAL_SPHERES - 1)) ∧
    (∀ n, n < 65536 → n < cfg.MAX_TOTAL_SPHERES →
      get_wt_addr cfg n = cfg.sFLASH_get_sector_addr (cfg.WT_SECTOR_START + n)) := by
  refine ⟨fun n h16 hn => ?_, fun n h16 hn => get_wt_addr_valid cfg n h16 hn⟩
  rw [get_wt_addr_last cfg (by omega)]
  exact get_wt_addr_clamped cfg n (by rw [Nat.mod_eq_of_lt h16]; exact hn)

/-- Witness of C8 on `sampleConfig`: index 200 is clamped to index 119, index 5 is mapped to
sector 21. -/
theorem get_wt_addr_index_clamping_witness :
    get_wt_addr sampleConfig 200 = get_wt_addr sampleConfig (sampleConfig.MAX_TOTAL_SPHERES - 1) ∧
    get_wt_addr sampleConfig 5
      = sampleConfig.sFLASH_get_sector_addr (sampleConfig.WT_SECTOR_START + 5) :=
  ⟨(get_wt_addr_index_clamping sampleConfig).1 200 (by decide) (by decide),
   (get_wt_addr_index_clamping sampleConfig).2 5 (by decide) (by decide)⟩

/-! ## Classification -/

theorem read_spheretype_fst (cfg : Config) (s : State) (n : Nat) :
    (read_spheretype cfg s n).1 =
      if sig_match (fun k => s.flash (get_wt_addr cfg (n % 2 ^ 32) + k))
          s.user_sphere_signature then SphereTypes.SPHERE_TYPE_USER
      else if sig_match (fun k => s.flash (get_wt_addr cfg (n % 2 ^ 32) + k))
          s.factory_sphere_signature then SphereTypes.SPHERE_TYPE_FACTORY
      else SphereTypes.SPHERE_TYPE_EMPTY := by
  simp only [read_spheretype, sFLASH_read_buffer, resume_timer_IRQ, pause_timer_IRQ, sig_match]
  simp only [show (0:Nat) < 4 by decide, show (1:Nat) < 4 by decide,
    show (2:Nat) < 4 by decide, show (3:Nat) < 4 by decide, if_true]
  split_ifs <;> rfl

theorem read_spheretype_snd (cfg : Config) (s : State) (n : Nat) :
    (read_spheretype cfg s n).2 =
      { s with
        irq_running := true
        log := s.log ++ [Event.pause, Event.read (get_wt_addr cfg (n % 2 ^ 32)) 4,
          Event.resume] } := by
  simp only [read_spheretype, sFLASH_read_buffer, resume_timer_IRQ, pause_timer_IRQ]
  split_ifs <;> simp

theorem sig_match_user_init (s : State) (d : Nat → Nat) :
    sig_match d (init_sphere_flash s).user_sphere_signature = true
      ↔ (d 0 = 85 ∧ d 1 = 83 ∧ d 2 = 49 ∧ d 3 = 0) := by
  simp [sig_match, init_sphere_flash, upd, and_assoc]

theorem sig_match_factory_init (s : State) (d : Nat → Nat) :
    sig_match d (init_sphere_flash s).factory_sphere_signature = true
      ↔ (d 0 = 70 ∧ d 1 = 83 ∧ d 2 = 49 ∧ d 3 = 0) := by
  simp [sig_match, init_sphere_flash, upd, and_assoc]

@[simp] theorem init_sphere_flash_flash (s : State) : (init_sphere_flash s).flash = s.flash := rfl

@[simp] theorem init_sphere_flash_types (s : State) :
    (init_sphere_flash s).sphere_types = s.sphere_types := rfl

/-- Classification after `init_sphere_flash`, by the four bytes at the address resolved for the
index. -/
theorem classify_init (cfg : Config) (s : State) (n : Nat) :
    classify cfg (init_sphere_flash s) n =
      if sig_at s.flash (get_wt_addr cfg (n % 2 ^ 32)) 85 83 49 0 then
        SphereTypes.SPHERE_TYPE_USER
      else if sig_at s.flash (get_wt_addr cfg (n % 2 ^ 32)) 70 83 49 0 then
        SphereTypes.SPHERE_TYPE_FACTORY
      else SphereTypes.SPHERE_TYPE_EMPTY := by
  unfold classify
  rw [read_spheretype_fst]
  have hu := sig_match_user_init s (fun k => s.flash (get_wt_addr cfg (n % 2 ^ 32) + k))
  have hf := sig_match_factory_init s (fun k => s.flash (get_wt_addr cfg (n % 2 ^ 32) + k))
  simp only [init_sphere_flash_flash, Nat.add_zero] at hu hf ⊢
  by_cases h1 : sig_at s.flash (get_wt_addr cfg (n % 2 ^ 32)) 85 83 49 0
  · rw [if_pos h1, if_pos (hu.2 h1)]
  · rw [if_neg h1, if_neg (fun h => h1 (hu.1 h))]
    by_cases h2 : sig_at s.flash (get_wt_addr cfg (n % 2 ^ 32)) 70 83 49 0
    · rw [if_pos h2, if_pos (hf.2 h2)]
    · rw [if_neg h2, if_neg (fun h => h2 (hf.1 h))]

/-- C7: after `init_sphere_flash`, for a valid index `i` (one that the resolver's 16-bit
parameter holds), `read_spheretype i` returns USER exactly when the four bytes at the base of
sector `WT_SECTOR_START + i` are `'U','S','1',0`, FACTORY exactly when they are `'F','S','1',0`,
and EMPTY for every other four bytes. -/
theorem read_spheretype_by_signature (cfg : Config) (s : State) (i : Nat)
    (hi : i < cfg.MAX_TOTAL_SPHERES) (h16 : i < 65536) :
    ((read_spheretype cfg (init_sphere_flash s) i).1 = SphereTypes.SPHERE_TYPE_USER
      ↔ sig_at s.flash (cfg.sFLASH_get_sector_addr (cfg.WT_SECTOR_START + i)) 85 83 49 0) ∧
    ((read_spheretype cfg (init_sphere_flash s) i).1 = SphereTypes.SPHERE_TYPE_FACTORY
      ↔ sig_at s.flash (cfg.sFLASH_get_sector_addr (cfg.WT_SECTOR_START + i)) 70 83 49 0) ∧
    ((read_spheretype cfg (init_sphere_flash s) i).1 = SphereTypes.SPHERE_TYPE_EMPTY
      ↔ ¬ sig_at s.flash (cfg.sFLASH_get_sector_addr (cfg.WT_SECTOR_START + i)) 85 83 49 0
        ∧ ¬ sig_at s.flash (cfg.sFLASH_get_sector_addr (cfg.WT_SECTOR_START + i)) 70 83 49 0) := by
  have h := classify_init cfg s i
  unfold classify at h
  have h32 : i % 2 ^ 32 = i := Nat.mod_eq_of_lt (by omega)
  rw [h32, get_wt_addr_valid cfg i h16 hi] at h
  rw [h]
  have hne : ¬ (sig_at s.flash (cfg.sFLASH_get_sector_addr (cfg.WT_SECTOR_START + i)) 85 83 49 0
      ∧ sig_at s.flash (cfg.sFLASH_get_sector_addr (cfg.WT_SECTOR_START + i)) 70 83 49 0) := by
    rintro ⟨⟨a, _⟩, ⟨b, _⟩⟩
    omega
  by_cases h1 : sig_at s.flash (cfg.sFLASH_get_sector_addr (cfg.WT_SECTOR_START + i)) 85 83 49 0
  · have h2 : ¬ sig_at s.flash (cfg.sFLASH_get_sector_addr (cfg.WT_SECTOR_START + i)) 70 83 49 0 :=
      fun h2 => hne ⟨h1, h2⟩
    simp [h1, h2]
  · by_cases h2 : sig_at s.flash (cfg.sFLASH_get_sector_addr (cfg.WT_SECTOR_START + i)) 70 83 49 0
    · simp [h1, h2]
    · simp [h1, h2]

/-- Witness of C7: sphere 0 of `userSphere0State` carries the USER tag and is classified
USER. -/
theorem read_spheretype_by_signature_witness :
    (0 < sampleConfig.MAX_TOTAL_SPHERES ∧ 0 < 65536) ∧
    (read_spheretype sampleConfig (init_sphere_flash userSphere0State) 0).1
      = SphereTypes.SPHERE_TYPE_USER :=
  ⟨⟨by decide, by decide⟩,
   (read_spheretype_by_signature sampleConfig userSphere0State 0 (by decide) (by decide)).1.2
     (by decide)⟩

theorem read_spheretype_congr_addr (cfg : Config) (s : State) (n m : Nat)
    (h : get_wt_addr cfg (n % 2 ^ 32) = get_wt_addr cfg (m % 2 ^ 32)) :
    read_spheretype cfg s n = read_spheretype cfg s m := by
  unfold read_spheretype
  simp only [h]

/-- Where the clamp does act: an index whose low 16 bits are at or above `MAX_TOTAL_SPHERES`
(in particular every index from `MAX_TOTAL_SPHERES` up to 65535) is classified exactly like
index `MAX_TOTAL_SPHERES - 1` (same result, same resulting state). -/
theorem read_spheretype_index_clamping (cfg : Config) (s : State) (n : Nat)
    (h : cfg.MAX_TOTAL_SPHERES ≤ n % 65536) :
    read_spheretype cfg s n = read_spheretype cfg s (cfg.MAX_TOTAL_SPHERES - 1) := by
  apply read_spheretype_congr_addr
  have hlt : n % 65536 < 65536 := Nat.mod_lt _ (by decide)
  have h1 : n % 2 ^ 32 % 65536 = n % 65536 := by omega
  have h2 : (cfg.MAX_TOTAL_SPHERES - 1) % 2 ^ 32 = cfg.MAX_TOTAL_SPHERES - 1 :=
    Nat.mod_eq_of_lt (by omega)
  rw [h2, get_wt_addr_last cfg (by omega)]
  exact get_wt_addr_clamped cfg _ (by rw [h1]; exact h)

/-- On `sampleConfig`, index 70000 (low 16 bits 4464) is classified like index 119. -/
theorem read_spheretype_index_clamping_witness :
    sampleConfig.MAX_TOTAL_SPHERES ≤ 70000 % 65536 ∧
    read_spheretype sampleConfig userSphere0State 70000
      = read_spheretype sampleConfig userSphere0State (sampleConfig.MAX_TOTAL_SPHERES - 1) :=
  ⟨by decide, read_spheretype_index_clamping sampleConfig userSphere0State 70000 (by decide)⟩

/-- C9, evaluated on the code: the index 65536, which the `uint32_t` parameter of
`read_spheretype` admits and which is at or above `MAX_TOTAL_SPHERES`, is truncated to 0 at the
call of `get_wt_addr(uint16_t)` before the clamp is applied, so sphere 0 (USER) is classified
and not the last valid sphere (EMPTY). -/
theorem read_spheretype_wide_index_not_clamped :
    65536 < 2 ^ 32 ∧ sampleConfig.MAX_TOTAL_SPHERES ≤ 65536 ∧
    (read_spheretype sampleConfig (init_sphere_flash userSphere0State) 65536).1
      = SphereTypes.SPHERE_TYPE_USER ∧
    (read_spheretype sampleConfig (init_sphere_flash userSphere0State)
        (sampleConfig.MAX_TOTAL_SPHERES - 1)).1 = SphereTypes.SPHERE_TYPE_EMPTY ∧
    (read_spheretype sampleConfig (init_sphere_flash userSphere0State) 65536).1
      ≠ (read_spheretype sampleConfig (init_sphere_flash userSphere0State)
          (sampleConfig.MAX_TOTAL_SPHERES - 1)).1 := by
  refine ⟨by decide, by decide, by decide, by decide, by decide⟩

/-! ## The real-time reader -/

theorem clamp_0_2 (v : Nat) : _CLAMP_U8 v 0 2 = min (v % 256) 2 := by
  simp only [_CLAMP_U8, Nat.zero_mod, Nat.not_lt_zero, if_false]
  have h2 : (2 : Nat) % 256 = 2 := by decide
  rw [h2]
  split_ifs <;> omega

theorem load_addr_clamped (cfg : Config) (b x y z : Nat) :
    load_addr cfg b x y z
      = load_addr cfg b (min (x % 256) 2) (min (y % 256) 2) (min (z % 256) 2) := by
  have h : ∀ v, _CLAMP_U8 (min (v % 256) 2) 0 2 = _CLAMP_U8 v 0 2 := by
    intro v
    rw [clamp_0_2, clamp_0_2]
    omega
  simp only [load_addr, h]

/-- C6, as the code has it: the coordinates are `uint8_t`, each is replaced by the smaller of
itself and 2 before the address is computed (no coordinate is below 0), and the arguments
`(5, -1, 2)` arrive as `(5, 255, 2)` and read what `(2, 2, 2)` reads: same buffer contents,
same flash address in the log. -/
theorem load_extflash_wavetable_clamps (cfg : Config) (s : State) (i : Nat) (wave : Nat → Nat)
    (x y z : Nat) :
    load_extflash_wavetable cfg s i wave x y z
      = load_extflash_wavetable cfg s i wave (min (x % 256) 2) (min (y % 256) 2)
          (min (z % 256) 2) ∧
    load_extflash_wavetable cfg s i wave (toU8 5) (toU8 (-1)) (toU8 2)
      = load_extflash_wavetable cfg s i wave 2 2 2 := by
  constructor
  · unfold load_extflash_wavetable
    simp only [← load_addr_clamped]
  · unfold load_extflash_wavetable
    have h := load_addr_clamped cfg (get_wt_addr cfg (i % 256)) (toU8 5) (toU8 (-1)) (toU8 2)
    have e1 : min (toU8 5 % 256) 2 = 2 := by decide
    have e2 : min (toU8 (-1) % 256) 2 = 2 := by decide
    have e3 : min (toU8 2 % 256) 2 = 2 := by decide
    rw [e1, e2, e3] at h
    simp only [h]

/-- Counterexample to C6 as stated: on `stripedState`, loading sphere 0 with the arguments
`(5, -1, 2)` reads another flash address, and another first sample byte, than loading it with
`(2, 0, 2)`. -/
theorem load_minus_one_is_not_zero :
    toU8 (-1) = 255 ∧
    load_addr sampleConfig (get_wt_addr sampleConfig 0) (toU8 5) (toU8 (-1)) (toU8 2) = 1075636 ∧
    load_addr sampleConfig (get_wt_addr sampleConfig 0) 2 0 2 = 1069396 ∧
    (load_extflash_wavetable sampleConfig stripedState 0 (fun _ => 0)
        (toU8 5) (toU8 (-1)) (toU8 2)).1 0 = 26 ∧
    (load_extflash_wavetable sampleConfig stripedState 0 (fun _ => 0) 2 0 2).1 0 = 20 ∧
    load_extflash_wavetable sampleConfig stripedState 0 (fun _ => 0) (toU8 5) (toU8 (-1)) (toU8 2)
      ≠ load_extflash_wavetable sampleConfig stripedState 0 (fun _ => 0) 2 0 2 := by
  refine ⟨by decide, by decide, by decide, by decide, by decide, fun h => ?_⟩
  have h0 := congrFun (congrArg Prod.fst h) 0
  revert h0
  decide

/-! ## The writer -/

theorem save_valid (cfg : Config) (s : State) (i : Nat) (t : SphereTypes)
    (sphere_data : Nat → Nat) (h8 : i < 256) (hi : i < cfg.MAX_TOTAL_SPHERES)
    (ht : t = SphereTypes.SPHERE_TYPE_USER ∨ t = SphereTypes.SPHERE_TYPE_FACTORY) :
    save_sphere_to_flash cfg s i t sphere_data = Except.ok
      { s with
        flash := saved_flash cfg s.flash (signature_of s t) sphere_data (get_wt_addr cfg i)
        sphere_types := upd s.sphere_types i t
        irq_running := true
        log := s.log ++ [Event.pause, Event.erase (get_wt_addr cfg i),
          Event.write (get_wt_addr cfg i) 4,
          Event.write ((get_wt_addr cfg i + 4) % 2 ^ 32) (WT_SIZE cfg), Event.resume] } := by
  have h1 : i % 256 = i := Nat.mod_eq_of_lt h8
  rcases ht with rfl | rfl <;>
    simp [save_sphere_to_flash, h1, hi, sFLASH_write_buffer, sFLASH_erase_sector,
      pause_timer_IRQ, resume_timer_IRQ, signature_of] <;> rfl

theorem save_invalid (cfg : Config) (s : State) (i : Nat) (t : SphereTypes)
    (sphere_data : Nat → Nat) (hu : t ≠ SphereTypes.SPHERE_TYPE_USER)
    (hf : t ≠ SphereTypes.SPHERE_TYPE_FACTORY) :
    save_sphere_to_flash cfg s i t sphere_data = Except.ok
      { s with
        flash := fun a =>
          if get_wt_addr cfg (i % 256) ≤ a ∧ a < get_wt_addr cfg (i % 256) + cfg.SECTOR_SIZE
          then 255 else s.flash a
        irq_running := false
        log := s.log ++ [Event.pause, Event.erase (get_wt_addr cfg (i % 256))] } := by
  simp [save_sphere_to_flash, hu, hf, sFLASH_erase_sector, pause_timer_IRQ]

theorem save_out_of_range (cfg : Config) (s : State) (i : Nat) (t : SphereTypes)
    (sphere_data : Nat → Nat) (hi : cfg.MAX_TOTAL_SPHERES ≤ i % 256)
    (ht : t = SphereTypes.SPHERE_TYPE_USER ∨ t = SphereTypes.SPHERE_TYPE_FACTORY) :
    save_sphere_to_flash cfg s i t sphere_data = Except.error Fault.out_of_bounds := by
  have h : ¬ i % 256 < cfg.MAX_TOTAL_SPHERES := by omega
  rcases ht with rfl | rfl <;> simp [save_sphere_to_flash, h]

theorem saved_flash_signature (cfg : Config) (flash sig sphere_data : Nat → Nat) (b k : Nat)
    (hsec : 4 ≤ cfg.SECTOR_SIZE) (hb : b + 4 + WT_SIZE cfg ≤ 2 ^ 32) (hk : k < 4) :
    saved_flash cfg flash sig sphere_data b (b + k) = sig k % 256 := by
  have hno : ¬ ((b + 4) % 2 ^ 32 ≤ b + k ∧ b + k < (b + 4) % 2 ^ 32 + WT_SIZE cfg) := by
    by_cases h0 : WT_SIZE cfg = 0
    · rw [h0]
      omega
    · rw [Nat.mod_eq_of_lt (by omega)]
      omega
  simp only [saved_flash]
  rw [if_neg hno, if_pos (by omega), if_pos (by omega)]
  rw [Nat.add_sub_cancel_left, and_255]

theorem saved_flash_payload (cfg : Config) (flash sig sphere_data : Nat → Nat) (b k : Nat)
    (hsec : 4 + WT_SIZE cfg ≤ cfg.SECTOR_SIZE) (hb : b + 4 + WT_SIZE cfg ≤ 2 ^ 32)
    (hk : k < WT_SIZE cfg) :
    saved_flash cfg flash sig sphere_data b (b + 4 + k) = sphere_data k % 256 := by
  have hb4 : (b + 4) % 2 ^ 32 = b + 4 := Nat.mod_eq_of_lt (by omega)
  simp only [saved_flash, hb4]
  rw [if_pos (by omega), if_neg (by omega), if_pos (by omega)]
  rw [Nat.add_sub_cancel_left, and_255]

theorem load_fst (cfg : Config) (s : State) (i : Nat) (wave : Nat → Nat) (x y z k : Nat)
    (hk : k < cfg.WT_TABLELEN * cfg.BYTEDEPTH) :
    (load_extflash_wavetable cfg s i wave x y z).1 k
      = s.flash (load_addr cfg (get_wt_addr cfg (i % 256)) x y z + k) := by
  simp only [load_extflash_wavetable, sFLASH_read_buffer, if_pos hk]

theorem load_addr_in_range (cfg : Config) (b x y z : Nat) (hx : x < 3) (hy : y < 3) (hz : z < 3)
    (hdim : cfg.WT_DIM_SIZE = 3)
    (hb : b + 4 + (x + 3 * y + 9 * z) * cfg.SPHERE_WAVEFORM_SIZE
      + cfg.WT_NAME_MONITOR_CHARSIZE < 2 ^ 32) :
    load_addr cfg b x y z
      = b + 4 + ((x + 3 * y + 9 * z) * cfg.SPHERE_WAVEFORM_SIZE + cfg.WT_NAME_MONITOR_CHARSIZE) := by
  have cx : _CLAMP_U8 x 0 2 = x := by rw [clamp_0_2]; omega
  have cy : _CLAMP_U8 y 0 2 = y := by rw [clamp_0_2]; omega
  have cz : _CLAMP_U8 z 0 2 = z := by rw [clamp_0_2]; omega
  have hw : x + y * 3 + z * 3 * 3 = x + 3 * y + 9 * z := by omega
  simp only [load_addr, cx, cy, cz, hdim, hw]
  rw [Nat.mod_eq_of_lt (a := b + 4 + (x + 3 * y + 9 * z) * cfg.SPHERE_WAVEFORM_SIZE) (by omega)]
  rw [Nat.mod_eq_of_lt hb]
  omega

/-- C2: round trip. For a valid `uint8_t` index `i`, a payload buffer `P` holding 27
`o_waveform` and coordinates in `{0,1,2}`, after `save_sphere_to_flash i USER P` the call
`load_extflash_wavetable i buf x y z` fills the sample bytes of `buf` with the sample bytes of
waveform `x + 3*y + 9*z` of `P`, whatever the prior flash contents. The layout facts taken
from the absent headers are hypotheses: the cube has edge 3, the flash stride is
`sizeof(o_waveform)`, the samples sit behind the name field inside the struct, signature and
payload fit in the erased sector, and the sector lies in the 32-bit address space. -/
theorem save_load_round_trip (cfg : Config) (s : State) (i : Nat) (P : Nat → Nat) (x y z : Nat)
    (h8 : i < 256) (hi : i < cfg.MAX_TOTAL_SPHERES)
    (hx : x < 3) (hy : y < 3) (hz : z < 3)
    (hdim : cfg.WT_DIM_SIZE = 3)
    (hstride : cfg.SPHERE_WAVEFORM_SIZE = cfg.sizeof_o_waveform)
    (hname : cfg.WT_NAME_MONITOR_CHARSIZE = cfg.offsetof_wave)
    (hwave : cfg.offsetof_wave + cfg.WT_TABLELEN * cfg.BYTEDEPTH ≤ cfg.sizeof_o_waveform)
    (hfit : 4 + 27 * cfg.sizeof_o_waveform ≤ cfg.SECTOR_SIZE)
    (haddr : cfg.sFLASH_get_sector_addr (cfg.WT_SECTOR_START + i) + cfg.SECTOR_SIZE ≤ 2 ^ 32) :
    ∃ s1, save_sphere_to_flash cfg s i SphereTypes.SPHERE_TYPE_USER P = Except.ok s1 ∧
      ∀ (buf : Nat → Nat) (k : Nat), k < cfg.WT_TABLELEN * cfg.BYTEDEPTH →
        (load_extflash_wavetable cfg s1 i buf x y z).1 k
          = payload_sample_byte cfg P (x + 3 * y + 9 * z) k := by
  refine ⟨_, save_valid cfg s i _ P h8 hi (Or.inl rfl), fun buf k hk => ?_⟩
  have h1 : i % 256 = i := Nat.mod_eq_of_lt h8
  have hbase := get_wt_addr_valid cfg i (by omega) hi
  have hw1 : x + 3 * y + 9 * z + 1 ≤ 27 := by omega
  have hmul := Nat.mul_le_mul_right cfg.sizeof_o_waveform hw1
  rw [Nat.add_mul, Nat.one_mul] at hmul
  have hsize : WT_SIZE cfg = 27 * cfg.sizeof_o_waveform := by
    unfold WT_SIZE
    rw [hdim, Nat.mod_eq_of_lt (by omega)]
    omega
  rw [load_fst cfg _ i buf x y z k hk, h1,
    load_addr_in_range cfg _ x y z hx hy hz hdim (by rw [hstride, hname, hbase]; omega)]
  simp only []
  rw [Nat.add_assoc (get_wt_addr cfg i + 4)]
  rw [saved_flash_payload cfg _ _ P (get_wt_addr cfg i) _ (by rw [hsize]; exact hfit)
    (by rw [hsize, hbase]; omega) (by rw [hsize, hstride, hname]; omega)]
  unfold payload_sample_byte
  rw [hstride, hname]

/-- Witness of C2 on `sampleConfig`: sphere 7, waveform `(1, 2, 0)`, saved over the flash of
`userSphere0State`. -/
theorem save_load_round_trip_witness :
    (7 < 256 ∧ 7 < sampleConfig.MAX_TOTAL_SPHERES ∧ 1 < 3 ∧ 2 < 3 ∧ 0 < 3 ∧
      sampleConfig.WT_DIM_SIZE = 3 ∧
      sampleConfig.SPHERE_WAVEFORM_SIZE = sampleConfig.sizeof_o_waveform ∧
      sampleConfig.WT_NAME_MONITOR_CHARSIZE = sampleConfig.offsetof_wave ∧
      sampleConfig.offsetof_wave + sampleConfig.WT_TABLELEN * sampleConfig.BYTEDEPTH
        ≤ sampleConfig.sizeof_o_waveform ∧
      4 + 27 * sampleConfig.sizeof_o_waveform ≤ sampleConfig.SECTOR_SIZE ∧
      sampleConfig.sFLASH_get_sector_addr (sampleConfig.WT_SECTOR_START + 7)
        + sampleConfig.SECTOR_SIZE ≤ 2 ^ 32) ∧
    ∃ s1, save_sphere_to_flash sampleConfig userSphere0State 7 SphereTypes.SPHERE_TYPE_USER
        rampPayload = Except.ok s1 ∧
      ∀ (buf : Nat → Nat) (k : Nat), k < sampleConfig.WT_TABLELEN * sampleConfig.BYTEDEPTH →
        (load_extflash_wavetable sampleConfig s1 7 buf 1 2 0).1 k
          = payload_sample_byte sampleConfig rampPayload (1 + 3 * 2 + 9 * 0) k :=
  ⟨by decide,
   save_load_round_trip sampleConfig userSphere0State 7 rampPayload 1 2 0
     (by decide) (by decide) (by decide) (by decide) (by decide) (by decide) (by decide)
     (by decide) (by decide) (by decide) (by decide)⟩

/-! ## Loops over a `uint8_t` counter -/

theorem for_u8_inv (bound : Nat) (body : Nat → State → State) (hb : bound ≤ 255)
    (I : Nat → State → Prop)
    (step : ∀ i s, i < bound → I i s → I (i + 1) (body i s)) :
    ∀ (n i fuel : Nat) (s : State), i + n = bound → n < fuel → I i s →
      ∃ s', for_u8 bound body fuel i s = Except.ok s' ∧ I bound s' := by
  intro n
  induction n with
  | zero =>
    intro i fuel s hin hf hI
    obtain ⟨f, rfl⟩ : ∃ f, fuel = f + 1 := ⟨fuel - 1, by omega⟩
    have hi : i = bound := by omega
    subst hi
    exact ⟨s, by simp [for_u8], hI⟩
  | succ n ih =>
    intro i fuel s hin hf hI
    obtain ⟨f, rfl⟩ : ∃ f, fuel = f + 1 := ⟨fuel - 1, by omega⟩
    have hi : i < bound := by omega
    have hmod : (i + 1) % 256 = i + 1 := Nat.mod_eq_of_lt (by omega)
    obtain ⟨s', hs', hI'⟩ := ih (i + 1) f (body i s) (by omega) (by omega) (step i s hi hI)
    exact ⟨s', by simp [for_u8, hi, hmod, hs'], hI'⟩

theorem for_u8_terminates (bound : Nat) (body : Nat → State → State) (hb : bound ≤ 255)
    (I : Nat → State → Prop) (s : State) (h0 : I 0 s)
    (step : ∀ i s, i < bound → I i s → I (i + 1) (body i s)) :
    ∃ s', for_u8 bound body U8_FUEL 0 s = Except.ok s' ∧ I bound s' :=
  for_u8_inv bound body hb I step bound 0 U8_FUEL s (by omega) (by unfold U8_FUEL; omega) h0

/-! ## The full scan -/

theorem classify_congr (cfg : Config) (s s' : State) (n : Nat) (hf : s'.flash = s.flash)
    (hu : s'.user_sphere_signature = s.user_sphere_signature)
    (hfa : s'.factory_sphere_signature = s.factory_sphere_signature) :
    classify cfg s' n = classify cfg s n := by
  unfold classify
  rw [read_spheretype_fst, read_spheretype_fst, hf, hu, hfa]

/-- What a full scan leaves: with at most 255 slots the loop returns, flash and signatures are
as before, and every slot of the cache holds the classification of its sector. -/
theorem read_all_spheretypes_spec (cfg : Config) (s : State)
    (hmax : cfg.MAX_TOTAL_SPHERES ≤ 255) :
    ∃ s', read_all_spheretypes cfg s = Except.ok s' ∧
      s'.flash = s.flash ∧
      s'.user_sphere_signature = s.user_sphere_signature ∧
      s'.factory_sphere_signature = s.factory_sphere_signature ∧
      (∀ j, j < cfg.MAX_TOTAL_SPHERES → s'.sphere_types j = classify cfg s j) ∧
      (∀ j, cfg.MAX_TOTAL_SPHERES ≤ j → s'.sphere_types j = s.sphere_types j) ∧
      (s.irq_running = true → s'.irq_running = true) := by
  unfold read_all_spheretypes
  refine for_u8_terminates cfg.MAX_TOTAL_SPHERES (read_all_body cfg) hmax
    (fun i s' => s'.flash = s.flash ∧
      s'.user_sphere_signature = s.user_sphere_signature ∧
      s'.factory_sphere_signature = s.factory_sphere_signature ∧
      (∀ j, j < i → s'.sphere_types j = classify cfg s j) ∧
      (∀ j, i ≤ j → s'.sphere_types j = s.sphere_types j) ∧
      (s.irq_running = true → s'.irq_running = true)) s
    ⟨rfl, rfl, rfl, fun j hj => absurd hj (Nat.not_lt_zero j), fun _ _ => rfl, id⟩ ?_
  rintro i s' _ ⟨hf, hu, hfa, hlo, hhi, _⟩
  have hc : (read_spheretype cfg s' i).1 = classify cfg s i := classify_congr cfg s s' i hf hu hfa
  simp only [read_all_body, read_spheretype_snd]
  refine ⟨hf, hu, hfa, fun j hj => ?_, fun j hj => ?_, fun _ => trivial⟩
  · by_cases hji : j = i
    · subst hji
      rw [upd_same, hc]
    · rw [upd_other _ _ _ _ hji]
      exact hlo j (by omega)
  · rw [upd_other _ _ _ _ (by omega)]
    exact hhi j (by omega)

theorem classify_erased (cfg : Config) (s : State) (n : Nat) (h : ∀ a, s.flash a = 255) :
    classify cfg (init_sphere_flash s) n = SphereTypes.SPHERE_TYPE_EMPTY := by
  rw [classify_init]
  have h1 : ¬ sig_at s.flash (get_wt_addr cfg (n % 2 ^ 32)) 85 83 49 0 := by
    rintro ⟨a, _⟩
    rw [h] at a
    omega
  have h2 : ¬ sig_at s.flash (get_wt_addr cfg (n % 2 ^ 32)) 70 83 49 0 := by
    rintro ⟨a, _⟩
    rw [h] at a
    omega
  rw [if_neg h1, if_neg h2]

/-- Classification of a state whose signature arrays are the initialised ones. -/
theorem classify_of_init_sigs (cfg : Config) (s s0 : State) (n : Nat)
    (hu : s.user_sphere_signature = (init_sphere_flash s0).user_sphere_signature)
    (hf : s.factory_sphere_signature = (init_sphere_flash s0).factory_sphere_signature) :
    classify cfg s n =
      if sig_at s.flash (get_wt_addr cfg (n % 2 ^ 32)) 85 83 49 0 then
        SphereTypes.SPHERE_TYPE_USER
      else if sig_at s.flash (get_wt_addr cfg (n % 2 ^ 32)) 70 83 49 0 then
        SphereTypes.SPHERE_TYPE_FACTORY
      else SphereTypes.SPHERE_TYPE_EMPTY := by
  have h := classify_init cfg { s0 with flash := s.flash } n
  rw [← h]
  exact classify_congr cfg _ s n rfl hu hf

theorem sig_at_saved_flash (cfg : Config) (flash sig sphere_data : Nat → Nat) (b : Nat)
    (hsec : 4 ≤ cfg.SECTOR_SIZE) (hb : b + 4 + WT_SIZE cfg ≤ 2 ^ 32) :
    sig_at (saved_flash cfg flash sig sphere_data b) b
      (sig 0 % 256) (sig 1 % 256) (sig 2 % 256) (sig 3 % 256) := by
  have h0 := saved_flash_signature cfg flash sig sphere_data b 0 hsec hb (by decide)
  exact ⟨h0, saved_flash_signature cfg flash sig sphere_data b 1 hsec hb (by decide),
    saved_flash_signature cfg flash sig sphere_data b 2 hsec hb (by decide),
    saved_flash_signature cfg flash sig sphere_data b 3 hsec hb (by decide)⟩

theorem classify_saved_user (cfg : Config) (s' s0 : State) (i : Nat) (flash P : Nat → Nat)
    (hfl : s'.flash = saved_flash cfg flash (init_sphere_flash s0).user_sphere_signature P
      (get_wt_addr cfg i))
    (hu : s'.user_sphere_signature = (init_sphere_flash s0).user_sphere_signature)
    (hf : s'.factory_sphere_signature = (init_sphere_flash s0).factory_sphere_signature)
    (h32 : i < 2 ^ 32) (hsec : 4 ≤ cfg.SECTOR_SIZE)
    (hb : get_wt_addr cfg i + 4 + WT_SIZE cfg ≤ 2 ^ 32) :
    classify cfg s' i = SphereTypes.SPHERE_TYPE_USER := by
  rw [classify_of_init_sigs cfg s' s0 i hu hf, Nat.mod_eq_of_lt h32, hfl]
  have hs := sig_at_saved_flash cfg flash (init_sphere_flash s0).user_sphere_signature P
    (get_wt_addr cfg i) hsec hb
  rw [if_pos (by simpa [init_sphere_flash, upd] using hs)]

theorem classify_saved_factory (cfg : Config) (s' s0 : State) (i : Nat) (flash P : Nat → Nat)
    (hfl : s'.flash = saved_flash cfg flash (init_sphere_flash s0).factory_sphere_signature P
      (get_wt_addr cfg i))
    (hu : s'.user_sphere_signature = (init_sphere_flash s0).user_sphere_signature)
    (hf : s'.factory_sphere_signature = (init_sphere_flash s0).factory_sphere_signature)
    (h32 : i < 2 ^ 32) (hsec : 4 ≤ cfg.SECTOR_SIZE)
    (hb : get_wt_addr cfg i + 4 + WT_SIZE cfg ≤ 2 ^ 32) :
    classify cfg s' i = SphereTypes.SPHERE_TYPE_FACTORY := by
  rw [classify_of_init_sigs cfg s' s0 i hu hf, Nat.mod_eq_of_lt h32, hfl]
  have hs := sig_at_saved_flash cfg flash (init_sphere_flash s0).factory_sphere_signature P
    (get_wt_addr cfg i) hsec hb
  have hs' : sig_at (saved_flash cfg flash (init_sphere_flash s0).factory_sphere_signature
      P (get_wt_addr cfg i)) (get_wt_addr cfg i) 70 83 49 0 := by
    simpa [init_sphere_flash, upd] using hs
  rw [if_neg (fun hx => by have h1 := hx.1; have h2 := hs'.1; omega), if_pos hs']

/-- A save with a valid type and a valid index returns; the sector then classifies as the
saved type, the cache entry of the index is the saved type, and the payload bytes follow the
signature (given initialised signatures and a sector that holds signature and payload). -/
theorem save_valid_effect (cfg : Config) (s s0 : State) (i : Nat) (t : SphereTypes)
    (P : Nat → Nat) (h8 : i < 256) (hi : i < cfg.MAX_TOTAL_SPHERES)
    (ht : t = SphereTypes.SPHERE_TYPE_USER ∨ t = SphereTypes.SPHERE_TYPE_FACTORY)
    (hu : s.user_sphere_signature = (init_sphere_flash s0).user_sphere_signature)
    (hf : s.factory_sphere_signature = (init_sphere_flash s0).factory_sphere_signature)
    (hfit : 4 + WT_SIZE cfg ≤ cfg.SECTOR_SIZE)
    (hb : get_wt_addr cfg i + 4 + WT_SIZE cfg ≤ 2 ^ 32) :
    ∃ s', save_sphere_to_flash cfg s i t P = Except.ok s' ∧
      classify cfg s' i = t ∧
      s'.sphere_types = upd s.sphere_types i t ∧
      s'.user_sphere_signature = s.user_sphere_signature ∧
      s'.factory_sphere_signature = s.factory_sphere_signature ∧
      s'.irq_running = true ∧
      (∀ k, k < WT_SIZE cfg → s'.flash (get_wt_addr cfg i + 4 + k) = P k % 256) := by
  refine ⟨_, save_valid cfg s i t P h8 hi ht, ?_, rfl, rfl, rfl, rfl, fun k hk => ?_⟩
  · rcases ht with rfl | rfl
    · apply classify_saved_user cfg _ s0 i s.flash P ?_ ?_ ?_ (by omega) (by omega) hb
      · simp [signature_of, hu]
      · exact hu
      · exact hf
    · apply classify_saved_factory cfg _ s0 i s.flash P ?_ ?_ ?_ (by omega) (by omega) hb
      · simp [signature_of, hf]
      · exact hu
      · exact hf
  · exact saved_flash_payload cfg s.flash (signature_of s t) P (get_wt_addr cfg i) k hfit hb hk

/-! ## End-to-end scenario -/

/-- C5: from fully erased flash after `init_sphere_flash`, `read_all_spheretypes` returns and
every valid index reports EMPTY (cache entry and on-flash classification); then saving `P0` to
index 0 as FACTORY makes index 0 report FACTORY (cache and flash) while the cache entry of
every other valid index is still EMPTY; then saving `P1` to index 0 as USER makes index 0
report USER and the payload bytes behind the signature are exactly those of `P1`, whatever
`P0` was. Hypotheses on the absent constants: between 1 and 255 slots (the scan's `uint8_t`
loop ends), signature and payload fit in the erased sector, the sector lies in the 32-bit
address space. -/
theorem erased_scan_factory_then_user (cfg : Config) (s0 : State) (P0 P1 : Nat → Nat)
    (hpos : 0 < cfg.MAX_TOTAL_SPHERES) (hmax : cfg.MAX_TOTAL_SPHERES ≤ 255)
    (hfit : 4 + WT_SIZE cfg ≤ cfg.SECTOR_SIZE)
    (haddr : cfg.sFLASH_get_sector_addr (cfg.WT_SECTOR_START + 0) + cfg.SECTOR_SIZE ≤ 2 ^ 32)
    (herased : ∀ a, s0.flash a = 255) :
    ∃ s1 s2 s3,
      read_all_spheretypes cfg (init_sphere_flash s0) = Except.ok s1 ∧
      (∀ i, i < cfg.MAX_TOTAL_SPHERES →
        s1.sphere_types i = SphereTypes.SPHERE_TYPE_EMPTY ∧
        classify cfg s1 i = SphereTypes.SPHERE_TYPE_EMPTY) ∧
      save_sphere_to_flash cfg s1 0 SphereTypes.SPHERE_TYPE_FACTORY P0 = Except.ok s2 ∧
      s2.sphere_types 0 = SphereTypes.SPHERE_TYPE_FACTORY ∧
      classify cfg s2 0 = SphereTypes.SPHERE_TYPE_FACTORY ∧
      (∀ i, i < cfg.MAX_TOTAL_SPHERES → i ≠ 0 →
        s2.sphere_types i = SphereTypes.SPHERE_TYPE_EMPTY) ∧
      save_sphere_to_flash cfg s2 0 SphereTypes.SPHERE_TYPE_USER P1 = Except.ok s3 ∧
      s3.sphere_types 0 = SphereTypes.SPHERE_TYPE_USER ∧
      classify cfg s3 0 = SphereTypes.SPHERE_TYPE_USER ∧
      (∀ i, i < cfg.MAX_TOTAL_SPHERES → i ≠ 0 →
        s3.sphere_types i = SphereTypes.SPHERE_TYPE_EMPTY) ∧
      (∀ k, k < WT_SIZE cfg →
        s3.flash (cfg.sFLASH_get_sector_addr (cfg.WT_SECTOR_START + 0) + 4 + k) = P1 k % 256) := by
  have hbase := get_wt_addr_valid cfg 0 (by decide) hpos
  have hb : get_wt_addr cfg 0 + 4 + WT_SIZE cfg ≤ 2 ^ 32 := by rw [hbase]; omega
  obtain ⟨s1, h1, hf1, hu1, hfa1, hc1, _⟩ :=
    read_all_spheretypes_spec cfg (init_sphere_flash s0) hmax
  obtain ⟨s2, h2, hcl2, hty2, hu2, hfa2, _, _⟩ :=
    save_valid_effect cfg s1 s0 0 SphereTypes.SPHERE_TYPE_FACTORY P0 (by decide) hpos
      (Or.inr rfl) hu1 hfa1 hfit hb
  obtain ⟨s3, h3, hcl3, hty3, _, _, _, hpay3⟩ :=
    save_valid_effect cfg s2 s0 0 SphereTypes.SPHERE_TYPE_USER P1 (by decide) hpos
      (Or.inl rfl) (hu2.trans hu1) (hfa2.trans hfa1) hfit hb
  have he1 : ∀ i, i < cfg.MAX_TOTAL_SPHERES →
      s1.sphere_types i = SphereTypes.SPHERE_TYPE_EMPTY := fun i hi => by
    rw [hc1 i hi]
    exact classify_erased cfg s0 i herased
  have he2 : ∀ i, i < cfg.MAX_TOTAL_SPHERES → i ≠ 0 →
      s2.sphere_types i = SphereTypes.SPHERE_TYPE_EMPTY := fun i hi hne => by
    rw [hty2, upd_other _ _ _ _ hne]
    exact he1 i hi
  refine ⟨s1, s2, s3, h1, fun i hi => ⟨he1 i hi, ?_⟩, h2, by rw [hty2, upd_same], hcl2, he2,
    h3, by rw [hty3, upd_same], hcl3, fun i hi hne => ?_, fun k hk => ?_⟩
  · rw [classify_congr cfg (init_sphere_flash s0) s1 i hf1 hu1 hfa1]
    exact classify_erased cfg s0 i herased
  · rw [hty3, upd_other _ _ _ _ hne]
    exact he2 i hi hne
  · rw [← hbase]
    exact hpay3 k hk

/-- Witness of C5 on `sampleConfig` and `erasedState`, with two different payloads. -/
theorem erased_scan_factory_then_user_witness :
    (0 < sampleConfig.MAX_TOTAL_SPHERES ∧ sampleConfig.MAX_TOTAL_SPHERES ≤ 255 ∧
      4 + WT_SIZE sampleConfig ≤ sampleConfig.SECTOR_SIZE ∧
      sampleConfig.sFLASH_get_sector_addr (sampleConfig.WT_SECTOR_START + 0)
        + sampleConfig.SECTOR_SIZE ≤ 2 ^ 32 ∧
      ∀ a, erasedState.flash a = 255) ∧
    ∃ s1 s2 s3,
      read_all_spheretypes sampleConfig (init_sphere_flash erasedState) = Except.ok s1 ∧
      (∀ i, i < sampleConfig.MAX_TOTAL_SPHERES →
        s1.sphere_types i = SphereTypes.SPHERE_TYPE_EMPTY ∧
        classify sampleConfig s1 i = SphereTypes.SPHERE_TYPE_EMPTY) ∧
      save_sphere_to_flash sampleConfig s1 0 SphereTypes.SPHERE_TYPE_FACTORY (fun _ => 0)
        = Except.ok s2 ∧
      s2.sphere_types 0 = SphereTypes.SPHERE_TYPE_FACTORY ∧
      classify sampleConfig s2 0 = SphereTypes.SPHERE_TYPE_FACTORY ∧
      (∀ i, i < sampleConfig.MAX_TOTAL_SPHERES → i ≠ 0 →
        s2.sphere_types i = SphereTypes.SPHERE_TYPE_EMPTY) ∧
      save_sphere_to_flash sampleConfig s2 0 SphereTypes.SPHERE_TYPE_USER rampPayload
        = Except.ok s3 ∧
      s3.sphere_types 0 = SphereTypes.SPHERE_TYPE_USER ∧
      classify sampleConfig s3 0 = SphereTypes.SPHERE_TYPE_USER ∧
      (∀ i, i < sampleConfig.MAX_TOTAL_SPHERES → i ≠ 0 →
        s3.sphere_types i = SphereTypes.SPHERE_TYPE_EMPTY) ∧
      (∀ k, k < WT_SIZE sampleConfig →
        s3.flash (sampleConfig.sFLASH_get_sector_addr (sampleConfig.WT_SECTOR_START + 0) + 4 + k)
          = rampPayload k % 256) :=
  ⟨⟨by decide, by decide, by decide, by decide, fun _ => rfl⟩,
   erased_scan_factory_then_user sampleConfig erasedState (fun _ => 0) rampPayload
     (by decide) (by decide) (by decide) (by decide) (fun _ => rfl)⟩

/-! ## Pause and resume on the paths that run to their end -/

theorem read_spheretype_resumes (cfg : Config) (s : State) (n : Nat) :
    (read_spheretype cfg s n).2.irq_running = true := by
  rw [read_spheretype_snd]

theorem quick_clear_user_spheres_resumes (cfg : Config) (s s' : State)
    (h : quick_clear_user_spheres cfg s = Except.ok s') : s'.irq_running = true := by
  unfold quick_clear_user_spheres at h
  simp only [] at h
  split at h
  · cases h
  · cases h
    rfl

/-! ## Saves that are rejected or out of range -/

/-- C1, evaluated on the code: `save_sphere_to_flash 0 SPHERE_TYPE_EMPTY` on a flash whose
sphere 0 carries the USER tag returns after the sector erase. The four signature bytes go from
`'U','S','1',0` to `0xFF`, the sector's classification goes from USER to EMPTY; only the cache
is as before. -/
theorem save_bad_type_erases_sector :
    ∃ s', save_sphere_to_flash sampleConfig (init_sphere_flash userSphere0State) 0
        SphereTypes.SPHERE_TYPE_EMPTY rampPayload = Except.ok s' ∧
      get_wt_addr sampleConfig 0 = 1048576 ∧
      sig_at (init_sphere_flash userSphere0State).flash 1048576 85 83 49 0 ∧
      sig_at s'.flash 1048576 255 255 255 255 ∧
      classify sampleConfig (init_sphere_flash userSphere0State) 0
        = SphereTypes.SPHERE_TYPE_USER ∧
      classify sampleConfig s' 0 = SphereTypes.SPHERE_TYPE_EMPTY ∧
      s'.sphere_types = (init_sphere_flash userSphere0State).sphere_types := by
  refine ⟨_, save_invalid sampleConfig _ 0 _ rampPayload (by decide) (by decide),
    by decide, by decide, by decide, by decide, by decide, rfl⟩

/-- C3, evaluated on the code: entered with the interpolation-timer interrupt running,
`save_sphere_to_flash 0 SPHERE_TYPE_EMPTY` returns with the interrupt still paused; the only
primitive calls are the pause and the erase, no resume. -/
theorem save_bad_type_leaves_irq_paused :
    erasedState.irq_running = true ∧
    ∃ s', save_sphere_to_flash sampleConfig erasedState 0
        SphereTypes.SPHERE_TYPE_EMPTY rampPayload = Except.ok s' ∧
      s'.irq_running = false ∧
      s'.log = [Event.pause, Event.erase 1048576] := by
  refine ⟨rfl, _, save_invalid sampleConfig _ 0 _ rampPayload (by decide) (by decide), rfl, ?_⟩
  decide

/-- C4, evaluated on the code: after `init_sphere_flash` and `read_all_spheretypes` on a flash
whose sphere 0 carries the USER tag, the completed call
`save_sphere_to_flash 0 SPHERE_TYPE_EMPTY` leaves a state in which the cache entry of index 0
is USER while the sector classifies as EMPTY. -/
theorem cache_diverges_after_bad_type_save :
    ∃ s1 s2,
      read_all_spheretypes sampleConfig (init_sphere_flash userSphere0State) = Except.ok s1 ∧
      s1.sphere_types 0 = classify sampleConfig s1 0 ∧
      save_sphere_to_flash sampleConfig s1 0 SphereTypes.SPHERE_TYPE_EMPTY rampPayload
        = Except.ok s2 ∧
      s2.sphere_types 0 = SphereTypes.SPHERE_TYPE_USER ∧
      classify sampleConfig s2 0 = SphereTypes.SPHERE_TYPE_EMPTY ∧
      s2.sphere_types 0 ≠ classify sampleConfig s2 0 := by
  obtain ⟨s1, h1, hf1, hu1, hfa1, hc1, _⟩ :=
    read_all_spheretypes_spec sampleConfig (init_sphere_flash userSphere0State) (by decide)
  have hty : s1.sphere_types 0 = SphereTypes.SPHERE_TYPE_USER := by
    rw [hc1 0 (by decide)]
    decide
  have hcl1 : classify sampleConfig s1 0 = SphereTypes.SPHERE_TYPE_USER := by
    rw [classify_congr sampleConfig _ s1 0 hf1 hu1 hfa1]
    decide
  have hsave := save_invalid sampleConfig s1 0 SphereTypes.SPHERE_TYPE_EMPTY rampPayload
    (by decide) (by decide)
  have hcl2 : classify sampleConfig
      { s1 with
        flash := fun a =>
          if get_wt_addr sampleConfig (0 % 256) ≤ a
            ∧ a < get_wt_addr sampleConfig (0 % 256) + sampleConfig.SECTOR_SIZE
          then 255 else s1.flash a
        irq_running := false
        log := s1.log ++ [Event.pause, Event.erase (get_wt_addr sampleConfig (0 % 256))] } 0
      = SphereTypes.SPHERE_TYPE_EMPTY := by
    rw [classify_of_init_sigs sampleConfig _ userSphere0State 0 ?_ ?_]
    rotate_left
    · exact hu1
    · exact hfa1
    have hb : get_wt_addr sampleConfig (0 % 2 ^ 32) = 1048576 := by decide
    have hb' : get_wt_addr sampleConfig (0 % 256) = 1048576 := by decide
    have hsz : sampleConfig.SECTOR_SIZE = 65536 := rfl
    simp only [hb, hb', hsz]
    rw [if_neg (fun hx => by have h := hx.1; simp at h),
      if_neg (fun hx => by have h := hx.1; simp at h)]
  refine ⟨s1, _, h1, by rw [hty, hcl1], hsave, hty, hcl2, ?_⟩
  rw [hcl2]
  show s1.sphere_types 0 ≠ SphereTypes.SPHERE_TYPE_EMPTY
  rw [hty]
  decide

/-- C10, evaluated on the code: with 120 slots, `save_sphere_to_flash 255 SPHERE_TYPE_USER`
stores to `sphere_types[255]`, outside the array, whereas the same save to index 119 returns
and sets the cache entry of index 119. -/
theorem save_out_of_range_index_faults :
    255 < 256 ∧ sampleConfig.MAX_TOTAL_SPHERES ≤ 255 ∧
    save_sphere_to_flash sampleConfig (init_sphere_flash erasedState) 255
      SphereTypes.SPHERE_TYPE_USER rampPayload = Except.error Fault.out_of_bounds ∧
    ∃ s', save_sphere_to_flash sampleConfig (init_sphere_flash erasedState)
        (sampleConfig.MAX_TOTAL_SPHERES - 1) SphereTypes.SPHERE_TYPE_USER rampPayload
        = Except.ok s' ∧
      s'.sphere_types (sampleConfig.MAX_TOTAL_SPHERES - 1) = SphereTypes.SPHERE_TYPE_USER :=
  ⟨by decide, by decide,
   save_out_of_range sampleConfig _ 255 _ rampPayload (by decide) (Or.inl rfl),
   _, save_valid sampleConfig _ (sampleConfig.MAX_TOTAL_SPHERES - 1) _ rampPayload
     (by decide) (by decide) (Or.inl rfl), by simp [upd]⟩

/-! ## Sector layout -/

theorem sampleConfig_sector_base (i : Nat) (hi : i < 120) :
    sector_base sampleConfig i = (16 + i) * 65536 := by
  show ((16 + i) * 65536) % 2 ^ 32 = (16 + i) * 65536
  omega

theorem sampleConfig_sectors_disjoint : sectors_disjoint sampleConfig := by
  intro i j hi hj hij
  have hi' : i < 120 := hi
  have hj' : j < 120 := hj
  rw [sampleConfig_sector_base i hi', sampleConfig_sector_base j hj']
  show (16 + i) * 65536 + 65536 ≤ (16 + j) * 65536
    ∨ (16 + j) * 65536 + 65536 ≤ (16 + i) * 65536
  omega

theorem sampleConfig_sector_addr_increasing : sector_addr_increasing sampleConfig := by
  intro m n hm hmn hn
  have hm' : 16 ≤ m := hm
  have hn' : n < 16 + 120 := hn
  show (m * 65536) % 2 ^ 32 < (n * 65536) % 2 ^ 32
  omega

/-- C15: for valid indices `i < j` (held by the resolver's 16-bit parameter),
`get_wt_addr i < get_wt_addr j`, hence the two addresses differ, given that the flash adapter's
sector-address lookup is strictly increasing on the wavetable sectors. The sector number
`WT_SECTOR_START + wt_num` is passed on without truncation. -/
theorem get_wt_addr_strictly_increasing (cfg : Config) (i j : Nat)
    (hmono : sector_addr_increasing cfg)
    (hij : i < j) (hj : j < cfg.MAX_TOTAL_SPHERES) (h16 : j < 65536) :
    get_wt_addr cfg i < get_wt_addr cfg j ∧ get_wt_addr cfg i ≠ get_wt_addr cfg j := by
  have h : get_wt_addr cfg i < get_wt_addr cfg j := by
    rw [get_wt_addr_valid cfg i (by omega) (by omega), get_wt_addr_valid cfg j h16 hj]
    exact hmono _ _ (by omega) (by omega) (by omega)
  exact ⟨h, Nat.ne_of_lt h⟩

/-- Witness of C15 on `sampleConfig`: spheres 3 and 118. -/
theorem get_wt_addr_strictly_increasing_witness :
    (sector_addr_increasing sampleConfig ∧ 3 < 118 ∧ 118 < sampleConfig.MAX_TOTAL_SPHERES
      ∧ 118 < 65536) ∧
    get_wt_addr sampleConfig 3 < get_wt_addr sampleConfig 118 ∧
    get_wt_addr sampleConfig 3 ≠ get_wt_addr sampleConfig 118 :=
  ⟨⟨sampleConfig_sector_addr_increasing, by decide, by decide, by decide⟩,
   get_wt_addr_strictly_increasing sampleConfig 3 118 sampleConfig_sector_addr_increasing
     (by decide) (by decide) (by decide)⟩

/-! ## Idempotence of classification -/

/-- C16: `read_spheretype` leaves flash contents and the Sphere Type Cache as they were, and a
second call right after the first returns the same SphereType; with at most 255 slots (so that
the scan's `uint8_t` loop ends) a second `read_all_spheretypes` right after the first returns
and leaves the same cache, and the same flash, as the first. -/
theorem classification_idempotent (cfg : Config) (s : State) (n : Nat)
    (hmax : cfg.MAX_TOTAL_SPHERES ≤ 255) :
    ((read_spheretype cfg s n).2.flash = s.flash ∧
      (read_spheretype cfg s n).2.sphere_types = s.sphere_types ∧
      (read_spheretype cfg (read_spheretype cfg s n).2 n).1 = (read_spheretype cfg s n).1) ∧
    ∃ s1 s2, read_all_spheretypes cfg s = Except.ok s1 ∧
      read_all_spheretypes cfg s1 = Except.ok s2 ∧
      s2.sphere_types = s1.sphere_types ∧ s2.flash = s1.flash := by
  refine ⟨⟨by rw [read_spheretype_snd], by rw [read_spheretype_snd], ?_⟩, ?_⟩
  · exact classify_congr cfg s (read_spheretype cfg s n).2 n (by rw [read_spheretype_snd])
      (by rw [read_spheretype_snd]) (by rw [read_spheretype_snd])
  · obtain ⟨s1, h1, hf1, hu1, hfa1, hlo1, _, _⟩ := read_all_spheretypes_spec cfg s hmax
    obtain ⟨s2, h2, hf2, _, _, hlo2, hhi2, _⟩ := read_all_spheretypes_spec cfg s1 hmax
    refine ⟨s1, s2, h1, h2, ?_, hf2⟩
    funext j
    by_cases hj : j < cfg.MAX_TOTAL_SPHERES
    · rw [hlo2 j hj, hlo1 j hj]
      exact classify_congr cfg s s1 j hf1 hu1 hfa1
    · exact hhi2 j (by omega)

/-- Witness of C16 on `sampleConfig`, from a flash whose sphere 0 is a USER sphere. -/
theorem classification_idempotent_witness :
    sampleConfig.MAX_TOTAL_SPHERES ≤ 255 ∧
    ((read_spheretype sampleConfig (init_sphere_flash userSphere0State) 0).2.flash
        = (init_sphere_flash userSphere0State).flash ∧
      (read_spheretype sampleConfig (init_sphere_flash userSphere0State) 0).2.sphere_types
        = (init_sphere_flash userSphere0State).sphere_types ∧
      (read_spheretype sampleConfig
          (read_spheretype sampleConfig (init_sphere_flash userSphere0State) 0).2 0).1
        = (read_spheretype sampleConfig (init_sphere_flash userSphere0State) 0).1) ∧
    ∃ s1 s2, read_all_spheretypes sampleConfig (init_sphere_flash userSphere0State)
        = Except.ok s1 ∧
      read_all_spheretypes sampleConfig s1 = Except.ok s2 ∧
      s2.sphere_types = s1.sphere_types ∧ s2.flash = s1.flash :=
  ⟨by decide,
   classification_idempotent sampleConfig (init_sphere_flash userSphere0State) 0 (by decide)⟩

/-! ## Frame of a save -/

theorem saved_flash_outside (cfg : Config) (flash sig sphere_data : Nat → Nat) (b a : Nat)
    (hfit : 4 + WT_SIZE cfg ≤ cfg.SECTOR_SIZE) (hb : b + cfg.SECTOR_SIZE ≤ 2 ^ 32)
    (ha : ¬ (b ≤ a ∧ a < b + cfg.SECTOR_SIZE)) :
    saved_flash cfg flash sig sphere_data b a = flash a := by
  have hpay : ¬ ((b + 4) % 2 ^ 32 ≤ a ∧ a < (b + 4) % 2 ^ 32 + WT_SIZE cfg) := by
    by_cases h0 : WT_SIZE cfg = 0
    · rw [h0]
      omega
    · rw [Nat.mod_eq_of_lt (by omega)]
      omega
  simp only [saved_flash]
  rw [if_neg hpay, if_neg (by omega), if_neg ha]

/-- C17: a save to a valid index `i` with type USER or FACTORY returns and leaves every flash
byte of every other valid sphere's sector and every cache entry other than `i` as it was,
provided sectors do not overlap, signature and payload fit inside one sector, and the sector
of `i` lies in the 32-bit address space. -/
theorem save_frame (cfg : Config) (s : State) (i : Nat) (t : SphereTypes) (P : Nat → Nat)
    (h8 : i < 256) (hi : i < cfg.MAX_TOTAL_SPHERES)
    (ht : t = SphereTypes.SPHERE_TYPE_USER ∨ t = SphereTypes.SPHERE_TYPE_FACTORY)
    (hdis : sectors_disjoint cfg)
    (hfit : 4 + WT_SIZE cfg ≤ cfg.SECTOR_SIZE)
    (haddr : sector_base cfg i + cfg.SECTOR_SIZE ≤ 2 ^ 32) :
    ∃ s', save_sphere_to_flash cfg s i t P = Except.ok s' ∧
      (∀ j, j < cfg.MAX_TOTAL_SPHERES → j ≠ i →
        ∀ a, sector_base cfg j ≤ a → a < sector_base cfg j + cfg.SECTOR_SIZE →
          s'.flash a = s.flash a) ∧
      (∀ j, j ≠ i → s'.sphere_types j = s.sphere_types j) := by
  have hbase : get_wt_addr cfg i = sector_base cfg i := get_wt_addr_valid cfg i (by omega) hi
  refine ⟨_, save_valid cfg s i t P h8 hi ht, fun j hj hji a ha1 ha2 => ?_, fun j hji => ?_⟩
  · show saved_flash cfg s.flash (signature_of s t) P (get_wt_addr cfg i) a = s.flash a
    rw [hbase]
    apply saved_flash_outside cfg _ _ _ _ _ hfit haddr
    have hd := hdis i j hi hj (Ne.symm hji)
    omega
  · show upd s.sphere_types i t j = s.sphere_types j
    exact upd_other _ _ _ _ hji

/-- Witness of C17 on `sampleConfig`: a USER save to sphere 7 over `stripedState`. -/
theorem save_frame_witness :
    (7 < 256 ∧ 7 < sampleConfig.MAX_TOTAL_SPHERES ∧
      (SphereTypes.SPHERE_TYPE_USER = SphereTypes.SPHERE_TYPE_USER
        ∨ SphereTypes.SPHERE_TYPE_USER = SphereTypes.SPHERE_TYPE_FACTORY) ∧
      sectors_disjoint sampleConfig ∧
      4 + WT_SIZE sampleConfig ≤ sampleConfig.SECTOR_SIZE ∧
      sector_base sampleConfig 7 + sampleConfig.SECTOR_SIZE ≤ 2 ^ 32) ∧
    ∃ s', save_sphere_to_flash sampleConfig stripedState 7 SphereTypes.SPHERE_TYPE_USER
        rampPayload = Except.ok s' ∧
      (∀ j, j < sampleConfig.MAX_TOTAL_SPHERES → j ≠ 7 →
        ∀ a, sector_base sampleConfig j ≤ a →
          a < sector_base sampleConfig j + sampleConfig.SECTOR_SIZE →
          s'.flash a = stripedState.flash a) ∧
      (∀ j, j ≠ 7 → s'.sphere_types j = stripedState.sphere_types j) :=
  ⟨⟨by decide, by decide, Or.inl rfl, sampleConfig_sectors_disjoint, by decide, by decide⟩,
   save_frame sampleConfig stripedState 7 SphereTypes.SPHERE_TYPE_USER rampPayload
     (by decide) (by decide) (Or.inl rfl) sampleConfig_sectors_disjoint (by decide)
     (by decide)⟩

/-! ## Bulk clear of user spheres -/

theorem zeroed_read_data (d : Nat → Nat) (k : Nat) (hk : k < 4) :
    upd (upd (upd (upd d 0 0) 1 0) 2 0) 3 0 k = 0 := by
  have h : k = 0 ∨ k = 1 ∨ k = 2 ∨ k = 3 := by omega
  rcases h with rfl | rfl | rfl | rfl <;> simp [upd]

/-- One iteration of the clearing loop, in closed form. -/
theorem quick_clear_body_eq (cfg : Config) (j : Nat) (s : State) :
    quick_clear_body cfg j s =
      if clear_cond cfg s j then
        { s with
          flash := fun a => if in_signature (get_wt_addr cfg j) a then 0 else s.flash a
          sphere_types := upd s.sphere_types j SphereTypes.SPHERE_TYPE_EMPTY
          log := s.log ++ [Event.read (get_wt_addr cfg j) 4, Event.write (get_wt_addr cfg j) 4] }
      else { s with log := s.log ++ [Event.read (get_wt_addr cfg j) 4] } := by
  have hc : ((sFLASH_read_buffer s (fun _ => 0) (get_wt_addr cfg j) 4).2.sphere_types j
        = SphereTypes.SPHERE_TYPE_USER
      ∨ sig_match (sFLASH_read_buffer s (fun _ => 0) (get_wt_addr cfg j) 4).1
          (sFLASH_read_buffer s (fun _ => 0) (get_wt_addr cfg j) 4).2.user_sphere_signature
          = true) ↔ clear_cond cfg s j := by
    simp [clear_cond, sig_match, sFLASH_read_buffer]
  simp only [quick_clear_body]
  by_cases h : clear_cond cfg s j
  · rw [if_pos h, if_pos (hc.2 h)]
    simp only [sFLASH_write_buffer, sFLASH_read_buffer, List.append_assoc, List.singleton_append]
    congr 1
    funext a
    by_cases ha : in_signature (get_wt_addr cfg j) a
    · have ha' : get_wt_addr cfg j ≤ a ∧ a < get_wt_addr cfg j + 4 := ha
      rw [if_pos ha, if_pos ha', zeroed_read_data _ _ (by omega)]
      simp
    · have ha' : ¬ (get_wt_addr cfg j ≤ a ∧ a < get_wt_addr cfg j + 4) := ha
      rw [if_neg ha, if_neg ha']
  · rw [if_neg h, if_neg (fun hx => h (hc.1 hx))]
    simp only [sFLASH_read_buffer]

/-- Invariant of the clearing loop before iteration `n`, relative to the state `s` in which
`quick_clear_user_spheres` was entered. -/
theorem quick_clear_loop_spec (cfg : Config) (s : State)
    (hmax : cfg.MAX_TOTAL_SPHERES ≤ 255)
    (hgap : ∀ i j, i < cfg.MAX_TOTAL_SPHERES → j < cfg.MAX_TOTAL_SPHERES → i ≠ j →
      get_wt_addr cfg i + 4 ≤ get_wt_addr cfg j ∨ get_wt_addr cfg j + 4 ≤ get_wt_addr cfg i) :
    ∃ s', for_u8 cfg.MAX_TOTAL_SPHERES (quick_clear_body cfg) U8_FUEL 0 (pause_timer_IRQ s)
        = Except.ok s' ∧
      s'.user_sphere_signature = s.user_sphere_signature ∧
      s'.factory_sphere_signature = s.factory_sphere_signature ∧
      (∀ j, s'.sphere_types j =
        if j < cfg.MAX_TOTAL_SPHERES ∧ clear_cond cfg s j then SphereTypes.SPHERE_TYPE_EMPTY
        else s.sphere_types j) ∧
      (∀ a, (∃ j, j < cfg.MAX_TOTAL_SPHERES ∧ clear_cond cfg s j
          ∧ in_signature (get_wt_addr cfg j) a) → s'.flash a = 0) ∧
      (∀ a, ¬ (∃ j, j < cfg.MAX_TOTAL_SPHERES ∧ clear_cond cfg s j
          ∧ in_signature (get_wt_addr cfg j) a) → s'.flash a = s.flash a) := by
  refine for_u8_terminates cfg.MAX_TOTAL_SPHERES (quick_clear_body cfg) hmax
    (fun n s' =>
      s'.user_sphere_signature = s.user_sphere_signature ∧
      s'.factory_sphere_signature = s.factory_sphere_signature ∧
      (∀ j, s'.sphere_types j =
        if j < n ∧ clear_cond cfg s j then SphereTypes.SPHERE_TYPE_EMPTY
        else s.sphere_types j) ∧
      (∀ a, (∃ j, j < n ∧ clear_cond cfg s j ∧ in_signature (get_wt_addr cfg j) a) →
        s'.flash a = 0) ∧
      (∀ a, ¬ (∃ j, j < n ∧ clear_cond cfg s j ∧ in_signature (get_wt_addr cfg j) a) →
        s'.flash a = s.flash a)) (pause_timer_IRQ s) ?_ ?_
  · refine ⟨rfl, rfl, fun j => ?_, fun a h => ?_, fun a _ => rfl⟩
    · rw [if_neg (fun h => Nat.not_lt_zero j h.1)]
      rfl
    · obtain ⟨j, hj, _⟩ := h
      exact absurd hj (Nat.not_lt_zero j)
  · rintro n s' hn ⟨hu, hfa, hty, hz, hsame⟩
    -- the test at index `n` sees the entry state
    have hflash : ∀ k, k < 4 →
        s'.flash (get_wt_addr cfg n + k) = s.flash (get_wt_addr cfg n + k) := by
      intro k hk
      apply hsame
      rintro ⟨j, hj, _, hin⟩
      have hin' : get_wt_addr cfg j ≤ get_wt_addr cfg n + k
          ∧ get_wt_addr cfg n + k < get_wt_addr cfg j + 4 := hin
      have hg := hgap j n (by omega) hn (by omega)
      omega
    have hcond : clear_cond cfg s' n ↔ clear_cond cfg s n := by
      have hc := hty n
      rw [if_neg (fun h => Nat.lt_irrefl n h.1)] at hc
      simp only [clear_cond, sig_match, hc, hu, hflash 0 (by decide), hflash 1 (by decide),
        hflash 2 (by decide), hflash 3 (by decide)]
    rw [quick_clear_body_eq]
    by_cases hc : clear_cond cfg s n
    · rw [if_pos (hcond.2 hc)]
      refine ⟨hu, hfa, fun j => ?_, fun a h => ?_, fun a h => ?_⟩
      · show upd s'.sphere_types n SphereTypes.SPHERE_TYPE_EMPTY j = _
        by_cases hjn : j = n
        · subst hjn
          rw [upd_same, if_pos ⟨Nat.lt_succ_self j, hc⟩]
        · rw [upd_other _ _ _ _ hjn, hty j]
          by_cases hj : j < n ∧ clear_cond cfg s j
          · rw [if_pos hj, if_pos ⟨by omega, hj.2⟩]
          · rw [if_neg hj, if_neg (fun h => hj ⟨by omega, h.2⟩)]
      · show (if in_signature (get_wt_addr cfg n) a then 0 else s'.flash a) = 0
        by_cases hin : in_signature (get_wt_addr cfg n) a
        · rw [if_pos hin]
        · rw [if_neg hin]
          obtain ⟨j, hj, hcj, hinj⟩ := h
          have hjn : j ≠ n := fun e => hin (e ▸ hinj)
          exact hz a ⟨j, by omega, hcj, hinj⟩
      · show (if in_signature (get_wt_addr cfg n) a then 0 else s'.flash a) = s.flash a
        have hin : ¬ in_signature (get_wt_addr cfg n) a :=
          fun hin => h ⟨n, Nat.lt_succ_self n, hc, hin⟩
        rw [if_neg hin]
        exact hsame a (fun ⟨j, hj, hcj, hinj⟩ => h ⟨j, by omega, hcj, hinj⟩)
    · rw [if_neg (fun h => hc (hcond.1 h))]
      have hlt : ∀ j, (j < n + 1 ∧ clear_cond cfg s j) ↔ (j < n ∧ clear_cond cfg s j) := by
        intro j
        constructor
        · rintro ⟨h1, h2⟩
          refine ⟨?_, h2⟩
          by_cases hjn : j = n
          · subst hjn
            exact absurd h2 hc
          · omega
        · rintro ⟨h1, h2⟩
          exact ⟨by omega, h2⟩
      refine ⟨hu, hfa, fun j => ?_, fun a h => ?_, fun a h => ?_⟩
      · show s'.sphere_types j = _
        rw [hty j]
        by_cases hj : j < n ∧ clear_cond cfg s j
        · rw [if_pos hj, if_pos ((hlt j).2 hj)]
        · rw [if_neg hj, if_neg (fun h => hj ((hlt j).1 h))]
      · obtain ⟨j, hj, hcj, hinj⟩ := h
        exact hz a ⟨j, ((hlt j).1 ⟨hj, hcj⟩).1, hcj, hinj⟩
      · exact hsame a (fun ⟨j, hj, hcj, hinj⟩ => h ⟨j, by omega, hcj, hinj⟩)

/-- What `quick_clear_user_spheres` leaves, relative to the entry state, when the signature
bytes of different valid spheres do not overlap. -/
theorem quick_clear_spec (cfg : Config) (s : State)
    (hmax : cfg.MAX_TOTAL_SPHERES ≤ 255)
    (hgap : ∀ i j, i < cfg.MAX_TOTAL_SPHERES → j < cfg.MAX_TOTAL_SPHERES → i ≠ j →
      get_wt_addr cfg i + 4 ≤ get_wt_addr cfg j ∨ get_wt_addr cfg j + 4 ≤ get_wt_addr cfg i) :
    ∃ s', quick_clear_user_spheres cfg s = Except.ok s' ∧
      s'.user_sphere_signature = s.user_sphere_signature ∧
      s'.factory_sphere_signature = s.factory_sphere_signature ∧
      (∀ j, s'.sphere_types j =
        if j < cfg.MAX_TOTAL_SPHERES ∧ clear_cond cfg s j then SphereTypes.SPHERE_TYPE_EMPTY
        else s.sphere_types j) ∧
      (∀ a, (∃ j, j < cfg.MAX_TOTAL_SPHERES ∧ clear_cond cfg s j
          ∧ in_signature (get_wt_addr cfg j) a) → s'.flash a = 0) ∧
      (∀ a, ¬ (∃ j, j < cfg.MAX_TOTAL_SPHERES ∧ clear_cond cfg s j
          ∧ in_signature (get_wt_addr cfg j) a) → s'.flash a = s.flash a) := by
  obtain ⟨s', hs', hu, hfa, hty, hz, hsame⟩ := quick_clear_loop_spec cfg s hmax hgap
  refine ⟨resume_timer_IRQ s', ?_, hu, hfa, hty, hz, hsame⟩
  simp only [quick_clear_user_spheres, hs']

theorem signature_gap_of_disjoint (cfg : Config) (hmax : cfg.MAX_TOTAL_SPHERES ≤ 255)
    (hdis : sectors_disjoint cfg) (hsec : 4 ≤ cfg.SECTOR_SIZE) :
    ∀ i j, i < cfg.MAX_TOTAL_SPHERES → j < cfg.MAX_TOTAL_SPHERES → i ≠ j →
      get_wt_addr cfg i + 4 ≤ get_wt_addr cfg j
        ∨ get_wt_addr cfg j + 4 ≤ get_wt_addr cfg i := by
  intro i j hi hj hij
  have h1 : get_wt_addr cfg i = sector_base cfg i := get_wt_addr_valid cfg i (by omega) hi
  have h2 : get_wt_addr cfg j = sector_base cfg j := get_wt_addr_valid cfg j (by omega) hj
  have hd := hdis i j hi hj hij
  rw [h1, h2]
  omega

theorem clear_cond_init_iff (cfg : Config) (s : State) (i : Nat)
    (hi : i < cfg.MAX_TOTAL_SPHERES) (h16 : i < 65536) :
    clear_cond cfg (init_sphere_flash s) i ↔ marked_user cfg s i := by
  have hb : get_wt_addr cfg i = sector_base cfg i := get_wt_addr_valid cfg i h16 hi
  have hm := sig_match_user_init s (fun k => s.flash (get_wt_addr cfg i + k))
  unfold clear_cond marked_user sig_at
  rw [init_sphere_flash_flash, init_sphere_flash_types, hm, hb]
  rfl

/-- C11: after `init_sphere_flash`, with at most 255 slots, sectors that do not overlap and
hold at least the 4 signature bytes, `quick_clear_user_spheres` returns and, for every valid
index `i`: if before the call the cache entry was USER or the on-flash signature was the USER
tag, the 4 signature bytes are `0x00` afterwards and the cache entry is EMPTY; otherwise every
byte of the sector and the cache entry of `i` are as before. A byte outside the 4-byte
signatures of the valid spheres is never changed. -/
theorem quick_clear_postcondition (cfg : Config) (s : State)
    (hmax : cfg.MAX_TOTAL_SPHERES ≤ 255) (hdis : sectors_disjoint cfg)
    (hsec : 4 ≤ cfg.SECTOR_SIZE) :
    ∃ s', quick_clear_user_spheres cfg (init_sphere_flash s) = Except.ok s' ∧
      (∀ i, i < cfg.MAX_TOTAL_SPHERES → marked_user cfg s i →
        sig_at s'.flash (sector_base cfg i) 0 0 0 0
          ∧ s'.sphere_types i = SphereTypes.SPHERE_TYPE_EMPTY) ∧
      (∀ i, i < cfg.MAX_TOTAL_SPHERES → ¬ marked_user cfg s i →
        (∀ a, sector_base cfg i ≤ a → a < sector_base cfg i + cfg.SECTOR_SIZE →
          s'.flash a = s.flash a)
          ∧ s'.sphere_types i = s.sphere_types i) ∧
      (∀ a, (∀ i, i < cfg.MAX_TOTAL_SPHERES → ¬ in_signature (sector_base cfg i) a) →
        s'.flash a = s.flash a) := by
  obtain ⟨s', hs', _, _, hty, hz, hsame⟩ := quick_clear_spec cfg (init_sphere_flash s) hmax
    (signature_gap_of_disjoint cfg hmax hdis hsec)
  have hb : ∀ i, i < cfg.MAX_TOTAL_SPHERES → get_wt_addr cfg i = sector_base cfg i :=
    fun i hi => get_wt_addr_valid cfg i (by omega) hi
  have hc : ∀ i, i < cfg.MAX_TOTAL_SPHERES →
      (clear_cond cfg (init_sphere_flash s) i ↔ marked_user cfg s i) :=
    fun i hi => clear_cond_init_iff cfg s i hi (by omega)
  refine ⟨s', hs', fun i hi hm => ⟨?_, ?_⟩, fun i hi hm => ⟨fun a ha1 ha2 => ?_, ?_⟩,
    fun a ha => ?_⟩
  · have hk : ∀ k, k < 4 → s'.flash (sector_base cfg i + k) = 0 := fun k hk =>
      hz _ ⟨i, hi, (hc i hi).2 hm, by rw [hb i hi]; exact ⟨by omega, by omega⟩⟩
    exact ⟨hk 0 (by decide), hk 1 (by decide), hk 2 (by decide), hk 3 (by decide)⟩
  · rw [hty i, if_pos ⟨hi, (hc i hi).2 hm⟩]
  · rw [hsame a]
    · rfl
    · rintro ⟨j, hj, hcj, hin⟩
      rw [hb j hj] at hin
      have hin' : sector_base cfg j ≤ a ∧ a < sector_base cfg j + 4 := hin
      by_cases hji : j = i
      · subst hji
        exact hm ((hc j hj).1 hcj)
      · have hd := hdis j i hj hi hji
        omega
  · rw [hty i, if_neg (fun h => hm ((hc i hi).1 h.2))]
    rfl
  · rw [hsame a]
    · rfl
    · rintro ⟨j, hj, _, hin⟩
      rw [hb j hj] at hin
      exact ha j hj hin

/-- Witness of C11 on `sampleConfig`, from a flash whose sphere 0 is a USER sphere. -/
theorem quick_clear_postcondition_witness :
    (sampleConfig.MAX_TOTAL_SPHERES ≤ 255 ∧ sectors_disjoint sampleConfig
      ∧ 4 ≤ sampleConfig.SECTOR_SIZE) ∧
    ∃ s', quick_clear_user_spheres sampleConfig (init_sphere_flash userSphere0State)
        = Except.ok s' ∧
      (∀ i, i < sampleConfig.MAX_TOTAL_SPHERES → marked_user sampleConfig userSphere0State i →
        sig_at s'.flash (sector_base sampleConfig i) 0 0 0 0
          ∧ s'.sphere_types i = SphereTypes.SPHERE_TYPE_EMPTY) ∧
      (∀ i, i < sampleConfig.MAX_TOTAL_SPHERES →
        ¬ marked_user sampleConfig userSphere0State i →
        (∀ a, sector_base sampleConfig i ≤ a →
          a < sector_base sampleConfig i + sampleConfig.SECTOR_SIZE →
          s'.flash a = userSphere0State.flash a)
          ∧ s'.sphere_types i = userSphere0State.sphere_types i) ∧
      (∀ a, (∀ i, i < sampleConfig.MAX_TOTAL_SPHERES →
          ¬ in_signature (sector_base sampleConfig i) a) →
        s'.flash a = userSphere0State.flash a) :=
  ⟨⟨by decide, sampleConfig_sectors_disjoint, by decide⟩,
   quick_clear_postcondition sampleConfig userSphere0State (by decide)
     sampleConfig_sectors_disjoint (by decide)⟩

theorem sampleConfig_signature_gap :
    ∀ i j, i < sampleConfig.MAX_TOTAL_SPHERES → j < sampleConfig.MAX_TOTAL_SPHERES →
      i ≠ j →
      get_wt_addr sampleConfig i + 4 ≤ get_wt_addr sampleConfig j
        ∨ get_wt_addr sampleConfig j + 4 ≤ get_wt_addr sampleConfig i :=
  signature_gap_of_disjoint sampleConfig (by decide) sampleConfig_sectors_disjoint (by decide)

/-- C12, as the code has it: with at most 255 slots and sectors that do not overlap and hold
the 4 signature bytes, a valid index whose on-flash signature is the FACTORY tag and whose
cache entry is not USER before `quick_clear_user_spheres` still carries the FACTORY tag on
flash after it. -/
theorem factory_signature_kept_by_clear (cfg : Config) (s : State) (i : Nat)
    (hmax : cfg.MAX_TOTAL_SPHERES ≤ 255) (hdis : sectors_disjoint cfg)
    (hsec : 4 ≤ cfg.SECTOR_SIZE) (hi : i < cfg.MAX_TOTAL_SPHERES)
    (hsig : sig_at s.flash (sector_base cfg i) 70 83 49 0)
    (hcache : s.sphere_types i ≠ SphereTypes.SPHERE_TYPE_USER) :
    ∃ s', quick_clear_user_spheres cfg (init_sphere_flash s) = Except.ok s' ∧
      sig_at s'.flash (sector_base cfg i) 70 83 49 0 := by
  obtain ⟨s', hs', _, _, _, _, hsame⟩ := quick_clear_spec cfg (init_sphere_flash s) hmax
    (signature_gap_of_disjoint cfg hmax hdis hsec)
  have hnot : ¬ marked_user cfg s i := by
    rintro (h | h)
    · exact hcache h
    · have h1 := h.1
      have h2 := hsig.1
      omega
  have hk : ∀ k, k < 4 →
      s'.flash (sector_base cfg i + k) = s.flash (sector_base cfg i + k) := by
    intro k hk
    rw [hsame]
    · rfl
    · rintro ⟨j, hj, hcj, hin⟩
      have hbj : get_wt_addr cfg j = sector_base cfg j := get_wt_addr_valid cfg j (by omega) hj
      rw [hbj] at hin
      have hin' : sector_base cfg j ≤ sector_base cfg i + k
          ∧ sector_base cfg i + k < sector_base cfg j + 4 := hin
      by_cases hji : j = i
      · subst hji
        exact hnot ((clear_cond_init_iff cfg s j hj (by omega)).1 hcj)
      · have hd := hdis j i hj hi hji
        omega
  refine ⟨s', hs', ?_⟩
  have h0 : s'.flash (sector_base cfg i) = s.flash (sector_base cfg i) := hk 0 (by decide)
  exact ⟨by rw [h0]; exact hsig.1, by rw [hk 1 (by decide)]; exact hsig.2.1,
    by rw [hk 2 (by decide)]; exact hsig.2.2.1, by rw [hk 3 (by decide)]; exact hsig.2.2.2⟩

/-- Witness of the amended C12 on `sampleConfig`: sphere 0 of `factorySphere0State`. -/
theorem factory_signature_kept_by_clear_witness :
    (sampleConfig.MAX_TOTAL_SPHERES ≤ 255 ∧ sectors_disjoint sampleConfig
      ∧ 4 ≤ sampleConfig.SECTOR_SIZE ∧ 0 < sampleConfig.MAX_TOTAL_SPHERES
      ∧ sig_at factorySphere0State.flash (sector_base sampleConfig 0) 70 83 49 0
      ∧ factorySphere0State.sphere_types 0 ≠ SphereTypes.SPHERE_TYPE_USER) ∧
    ∃ s', quick_clear_user_spheres sampleConfig (init_sphere_flash factorySphere0State)
        = Except.ok s' ∧
      sig_at s'.flash (sector_base sampleConfig 0) 70 83 49 0 :=
  ⟨⟨by decide, sampleConfig_sectors_disjoint, by decide, by decide, by decide, by decide⟩,
   factory_signature_kept_by_clear sampleConfig factorySphere0State 0 (by decide)
     sampleConfig_sectors_disjoint (by decide) (by decide) (by decide) (by decide)⟩

/-- Counterexample to C12 as stated: sphere 0 of `staleFactoryState` carries the FACTORY tag on
flash while its cache entry says USER; `quick_clear_user_spheres` overwrites the tag with
`0x00` bytes. -/
theorem stale_cache_clears_factory_signature :
    0 < sampleConfig.MAX_TOTAL_SPHERES ∧
    sector_base sampleConfig 0 = 1048576 ∧
    sig_at (init_sphere_flash staleFactoryState).flash 1048576 70 83 49 0 ∧
    ∃ s', quick_clear_user_spheres sampleConfig (init_sphere_flash staleFactoryState)
        = Except.ok s' ∧
      sig_at s'.flash 1048576 0 0 0 0 ∧
      ¬ sig_at s'.flash 1048576 70 83 49 0 := by
  obtain ⟨s', hs', _, _, _, hz, _⟩ := quick_clear_spec sampleConfig
    (init_sphere_flash staleFactoryState) (by decide) sampleConfig_signature_gap
  have hk : ∀ k, k < 4 → s'.flash (1048576 + k) = 0 := fun k hk =>
    hz _ ⟨0, by decide, Or.inl rfl, by
      show get_wt_addr sampleConfig 0 ≤ 1048576 + k
        ∧ 1048576 + k < get_wt_addr sampleConfig 0 + 4
      have hb : get_wt_addr sampleConfig 0 = 1048576 := by decide
      rw [hb]
      omega⟩
  have hs0 : sig_at s'.flash 1048576 0 0 0 0 :=
    ⟨hk 0 (by decide), hk 1 (by decide), hk 2 (by decide), hk 3 (by decide)⟩
  refine ⟨by decide, by decide, by decide, s', hs', hs0, fun h => ?_⟩
  have h1 := h.1
  have h2 := hs0.1
  omega

/-! ## Cache entries across a save and a bulk clear -/

/-- An entry that is USER when the bulk clear is entered is EMPTY when it returns. -/
theorem quick_clear_empties_user_entry (cfg : Config) (s : State) (i : Nat)
    (hmax : cfg.MAX_TOTAL_SPHERES ≤ 255) (hi : i < cfg.MAX_TOTAL_SPHERES)
    (h : s.sphere_types i = SphereTypes.SPHERE_TYPE_USER) :
    ∃ s', quick_clear_user_spheres cfg s = Except.ok s' ∧
      s'.sphere_types i = SphereTypes.SPHERE_TYPE_EMPTY := by
  obtain ⟨s', hs', hI⟩ := for_u8_terminates cfg.MAX_TOTAL_SPHERES (quick_clear_body cfg) hmax
    (fun n s' => (n ≤ i → s'.sphere_types i = SphereTypes.SPHERE_TYPE_USER) ∧
      (i < n → s'.sphere_types i = SphereTypes.SPHERE_TYPE_EMPTY)) (pause_timer_IRQ s)
    ⟨fun _ => h, fun hlt => absurd hlt (Nat.not_lt_zero i)⟩ (by
      rintro j s' _ ⟨h1, h2⟩
      rw [quick_clear_body_eq]
      by_cases hji : j = i
      · subst hji
        rw [if_pos (show clear_cond cfg s' j from Or.inl (h1 (Nat.le_refl j)))]
        exact ⟨fun hle => absurd hle (by omega), fun _ => upd_same _ _ _⟩
      · by_cases hc : clear_cond cfg s' j
        · rw [if_pos hc]
          refine ⟨fun hle => ?_, fun hlt => ?_⟩
          · show upd s'.sphere_types j SphereTypes.SPHERE_TYPE_EMPTY i = _
            rw [upd_other _ _ _ _ (Ne.symm hji)]
            exact h1 (by omega)
          · show upd s'.sphere_types j SphereTypes.SPHERE_TYPE_EMPTY i = _
            rw [upd_other _ _ _ _ (Ne.symm hji)]
            exact h2 (by omega)
        · rw [if_neg hc]
          exact ⟨fun hle => h1 (by omega), fun hlt => h2 (by omega)⟩)
  refine ⟨resume_timer_IRQ s', ?_, hI.2 hi⟩
  simp only [quick_clear_user_spheres, hs']

/-- An entry that is not USER, over a sector whose first byte cannot be `'U'`, is left alone by
the bulk clear (flash writes only clear bits, so the first byte stays at or below `'F'`). -/
theorem quick_clear_keeps_entry (cfg : Config) (s : State) (i : Nat)
    (hmax : cfg.MAX_TOTAL_SPHERES ≤ 255)
    (hne : s.sphere_types i ≠ SphereTypes.SPHERE_TYPE_USER)
    (hu : s.user_sphere_signature 0 = 85)
    (hfl : s.flash (get_wt_addr cfg i) ≤ 70) :
    ∃ s', quick_clear_user_spheres cfg s = Except.ok s' ∧
      s'.sphere_types i = s.sphere_types i := by
  obtain ⟨s', hs', hI⟩ := for_u8_terminates cfg.MAX_TOTAL_SPHERES (quick_clear_body cfg) hmax
    (fun _ s' => s'.user_sphere_signature = s.user_sphere_signature ∧
      s'.sphere_types i = s.sphere_types i ∧ s'.flash (get_wt_addr cfg i) ≤ 70)
    (pause_timer_IRQ s) ⟨rfl, rfl, hfl⟩ (by
      rintro j s' _ ⟨h1, h2, h3⟩
      rw [quick_clear_body_eq]
      by_cases hc : clear_cond cfg s' j
      · rw [if_pos hc]
        have hji : i ≠ j := by
          rintro rfl
          rcases hc with hc | hc
          · exact hne (h2 ▸ hc)
          · simp only [sig_match, Bool.and_eq_true, decide_eq_true_eq, h1, hu,
              Nat.add_zero] at hc
            have := hc.1.1.1
            omega
        refine ⟨h1, ?_, ?_⟩
        · show upd s'.sphere_types j SphereTypes.SPHERE_TYPE_EMPTY i = _
          rw [upd_other _ _ _ _ hji]
          exact h2
        · show (if in_signature (get_wt_addr cfg j) (get_wt_addr cfg i) then 0
            else s'.flash (get_wt_addr cfg i)) ≤ 70
          split_ifs
          · exact Nat.zero_le _
          · exact h3
      · rw [if_neg hc]
        exact ⟨h1, h2, h3⟩)
  refine ⟨resume_timer_IRQ s', ?_, hI.2.1⟩
  simp only [quick_clear_user_spheres, hs']

theorem saved_flash_first_byte_le (cfg : Config) (flash sig sphere_data : Nat → Nat) (b : Nat) :
    saved_flash cfg flash sig sphere_data b b ≤ sig 0 % 256 := by
  simp only [saved_flash]
  rw [if_pos (show b ≤ b ∧ b < b + 4 by omega), Nat.sub_self]
  have key : ∀ x, x &&& (sig 0 % 256) ≤ sig 0 % 256 := fun _ => Nat.and_le_right
  split_ifs <;> first | exact key _ | exact Nat.le_trans Nat.and_le_left (key _)

theorem save_valid_cache_and_first_byte (cfg : Config) (s : State) (i : Nat) (t : SphereTypes)
    (P : Nat → Nat) (h8 : i < 256) (hi : i < cfg.MAX_TOTAL_SPHERES)
    (ht : t = SphereTypes.SPHERE_TYPE_USER ∨ t = SphereTypes.SPHERE_TYPE_FACTORY) :
    ∃ s1, save_sphere_to_flash cfg s i t P = Except.ok s1 ∧
      s1.sphere_types i = t ∧
      s1.user_sphere_signature = s.user_sphere_signature ∧
      s1.flash (get_wt_addr cfg i) ≤ signature_of s t 0 % 256 :=
  ⟨_, save_valid cfg s i t P h8 hi ht, upd_same _ _ _, rfl,
    saved_flash_first_byte_le cfg s.flash (signature_of s t) P (get_wt_addr cfg i)⟩

/-- Cache entry of `i` after a FACTORY save to `i` and after a following bulk clear. -/
theorem save_factory_then_clear (cfg : Config) (s : State) (i : Nat) (P : Nat → Nat)
    (hi : i < cfg.MAX_TOTAL_SPHERES) (hmax : cfg.MAX_TOTAL_SPHERES ≤ 255) :
    ∃ s1 s2, save_sphere_to_flash cfg (init_sphere_flash s) i
        SphereTypes.SPHERE_TYPE_FACTORY P = Except.ok s1 ∧
      s1.sphere_types i = SphereTypes.SPHERE_TYPE_FACTORY ∧
      quick_clear_user_spheres cfg s1 = Except.ok s2 ∧
      s2.sphere_types i = SphereTypes.SPHERE_TYPE_FACTORY := by
  obtain ⟨s1, hsave, hty1, hu1, hfl1⟩ := save_valid_cache_and_first_byte cfg
    (init_sphere_flash s) i SphereTypes.SPHERE_TYPE_FACTORY P (by omega) hi (Or.inr rfl)
  have hsig :
      signature_of (init_sphere_flash s) SphereTypes.SPHERE_TYPE_FACTORY 0 % 256 = 70 := by
    simp [signature_of, init_sphere_flash, upd]
  rw [hsig] at hfl1
  obtain ⟨s2, h2, hty2⟩ := quick_clear_keeps_entry cfg s1 i hmax
    (by rw [hty1]; decide) (by rw [hu1]; simp [init_sphere_flash, upd]) hfl1
  exact ⟨s1, s2, hsave, hty1, h2, by rw [hty2, hty1]⟩

/-- Cache entry of `i` after a USER save to `i` and after a following bulk clear. -/
theorem save_user_then_clear (cfg : Config) (s : State) (i : Nat) (P : Nat → Nat)
    (hi : i < cfg.MAX_TOTAL_SPHERES) (hmax : cfg.MAX_TOTAL_SPHERES ≤ 255) :
    ∃ s1 s2, save_sphere_to_flash cfg (init_sphere_flash s) i
        SphereTypes.SPHERE_TYPE_USER P = Except.ok s1 ∧
      s1.sphere_types i = SphereTypes.SPHERE_TYPE_USER ∧
      quick_clear_user_spheres cfg s1 = Except.ok s2 ∧
      s2.sphere_types i = SphereTypes.SPHERE_TYPE_EMPTY := by
  obtain ⟨s1, hsave, hty1, _, _⟩ := save_valid_cache_and_first_byte cfg
    (init_sphere_flash s) i SphereTypes.SPHERE_TYPE_USER P (by omega) hi (Or.inl rfl)
  obtain ⟨s2, h2, hty2⟩ := quick_clear_empties_user_entry cfg s1 i hmax hi hty1
  exact ⟨s1, s2, hsave, hty1, h2, hty2⟩

theorem cache_queries (cfg : Config) (s : State) (i : Nat) (hi : i < cfg.MAX_TOTAL_SPHERES)
    (h8 : i < 256) :
    is_sphere_filled cfg s i
      = Except.ok (if s.sphere_types i ≠ SphereTypes.SPHERE_TYPE_EMPTY then 1 else 0) ∧
    is_spheretype_factory cfg s i
      = Except.ok (if s.sphere_types i = SphereTypes.SPHERE_TYPE_FACTORY then 1 else 0) ∧
    is_spheretype_user cfg s i
      = Except.ok (if s.sphere_types i = SphereTypes.SPHERE_TYPE_USER then 1 else 0) := by
  have h1 : i % 256 = i := Nat.mod_eq_of_lt h8
  simp only [is_sphere_filled, is_spheretype_factory, is_spheretype_user, h1, if_pos hi]
  refine ⟨?_, ?_, ?_⟩ <;> split_ifs <;> rfl

/-- C13, as the code has it: after `init_sphere_flash`, for every valid index `i` (with at
most 255 slots) and payload `P`: after `save_sphere_to_flash i FACTORY P`,
`is_spheretype_factory i` is 1 and `is_spheretype_user i` is 0, and after a following
`quick_clear_user_spheres` the FACTORY sphere is still there: `is_spheretype_factory i` is 1,
`is_spheretype_user i` is 0 and `is_sphere_filled i` is 1. It is a USER save that the clear
undoes: after `save_sphere_to_flash i USER P`, `is_spheretype_user i` is 1 and
`is_spheretype_factory i` is 0, and after the clear all three queries are 0. -/
theorem queries_after_save_and_clear (cfg : Config) (s : State) (i : Nat) (P : Nat → Nat)
    (hi : i < cfg.MAX_TOTAL_SPHERES) (hmax : cfg.MAX_TOTAL_SPHERES ≤ 255) :
    (∃ s1 s2, save_sphere_to_flash cfg (init_sphere_flash s) i
        SphereTypes.SPHERE_TYPE_FACTORY P = Except.ok s1 ∧
      is_spheretype_factory cfg s1 i = Except.ok 1 ∧
      is_spheretype_user cfg s1 i = Except.ok 0 ∧
      quick_clear_user_spheres cfg s1 = Except.ok s2 ∧
      is_spheretype_factory cfg s2 i = Except.ok 1 ∧
      is_spheretype_user cfg s2 i = Except.ok 0 ∧
      is_sphere_filled cfg s2 i = Except.ok 1) ∧
    (∃ u1 u2, save_sphere_to_flash cfg (init_sphere_flash s) i
        SphereTypes.SPHERE_TYPE_USER P = Except.ok u1 ∧
      is_spheretype_user cfg u1 i = Except.ok 1 ∧
      is_spheretype_factory cfg u1 i = Except.ok 0 ∧
      quick_clear_user_spheres cfg u1 = Except.ok u2 ∧
      is_spheretype_factory cfg u2 i = Except.ok 0 ∧
      is_spheretype_user cfg u2 i = Except.ok 0 ∧
      is_sphere_filled cfg u2 i = Except.ok 0) := by
  have h8 : i < 256 := by omega
  constructor
  · obtain ⟨s1, s2, hsave, hty1, hclear, hty2⟩ := save_factory_then_clear cfg s i P hi hmax
    obtain ⟨_, hf1, hu1⟩ := cache_queries cfg s1 i hi h8
    obtain ⟨hfill2, hf2, hu2⟩ := cache_queries cfg s2 i hi h8
    rw [hty1] at hf1 hu1
    rw [hty2] at hfill2 hf2 hu2
    exact ⟨s1, s2, hsave, hf1, hu1, hclear, hf2, hu2, hfill2⟩
  · obtain ⟨u1, u2, hsave, hty1, hclear, hty2⟩ := save_user_then_clear cfg s i P hi hmax
    obtain ⟨_, hf1, hu1⟩ := cache_queries cfg u1 i hi h8
    obtain ⟨hfill2, hf2, hu2⟩ := cache_queries cfg u2 i hi h8
    rw [hty1] at hf1 hu1
    rw [hty2] at hfill2 hf2 hu2
    exact ⟨u1, u2, hsave, hu1, hf1, hclear, hf2, hu2, hfill2⟩

/-- Witness of the amended C13 on `sampleConfig`: sphere 5 over erased flash. -/
theorem queries_after_save_and_clear_witness :
    (5 < sampleConfig.MAX_TOTAL_SPHERES ∧ sampleConfig.MAX_TOTAL_SPHERES ≤ 255) ∧
    (∃ s1 s2, save_sphere_to_flash sampleConfig (init_sphere_flash erasedState) 5
        SphereTypes.SPHERE_TYPE_FACTORY rampPayload = Except.ok s1 ∧
      is_spheretype_factory sampleConfig s1 5 = Except.ok 1 ∧
      is_spheretype_user sampleConfig s1 5 = Except.ok 0 ∧
      quick_clear_user_spheres sampleConfig s1 = Except.ok s2 ∧
      is_spheretype_factory sampleConfig s2 5 = Except.ok 1 ∧
      is_spheretype_user sampleConfig s2 5 = Except.ok 0 ∧
      is_sphere_filled sampleConfig s2 5 = Except.ok 1) ∧
    (∃ u1 u2, save_sphere_to_flash sampleConfig (init_sphere_flash erasedState) 5
        SphereTypes.SPHERE_TYPE_USER rampPayload = Except.ok u1 ∧
      is_spheretype_user sampleConfig u1 5 = Except.ok 1 ∧
      is_spheretype_factory sampleConfig u1 5 = Except.ok 0 ∧
      quick_clear_user_spheres sampleConfig u1 = Except.ok u2 ∧
      is_spheretype_factory sampleConfig u2 5 = Except.ok 0 ∧
      is_spheretype_user sampleConfig u2 5 = Except.ok 0 ∧
      is_sphere_filled sampleConfig u2 5 = Except.ok 0) :=
  ⟨⟨by decide, by decide⟩,
   queries_after_save_and_clear sampleConfig erasedState 5 rampPayload (by decide) (by decide)⟩

/-- Counterexample to C13 as stated: over erased flash, after `init_sphere_flash`,
`save_sphere_to_flash 0 FACTORY` and then `quick_clear_user_spheres`, the queries
`is_spheretype_factory 0` and `is_sphere_filled 0` both return 1, not 0. -/
theorem factory_sphere_survives_clear :
    0 < sampleConfig.MAX_TOTAL_SPHERES ∧
    ∃ s1 s2, save_sphere_to_flash sampleConfig (init_sphere_flash erasedState) 0
        SphereTypes.SPHERE_TYPE_FACTORY rampPayload = Except.ok s1 ∧
      quick_clear_user_spheres sampleConfig s1 = Except.ok s2 ∧
      is_spheretype_factory sampleConfig s2 0 = Except.ok 1 ∧
      is_sphere_filled sampleConfig s2 0 = Except.ok 1 ∧
      is_spheretype_factory sampleConfig s2 0 ≠ Except.ok 0 ∧
      is_sphere_filled sampleConfig s2 0 ≠ Except.ok 0 := by
  obtain ⟨s1, s2, hsave, _, hclear, hty2⟩ :=
    save_factory_then_clear sampleConfig erasedState 0 rampPayload (by decide) (by decide)
  obtain ⟨hfill2, hf2, _⟩ := cache_queries sampleConfig s2 0 (by decide) (by decide)
  rw [hty2] at hfill2 hf2
  refine ⟨by decide, s1, s2, hsave, hclear, hf2, hfill2, ?_, ?_⟩
  · rw [hf2]
    simp
  · rw [hfill2]
    simp

/-! ## Flash transactions happen inside the pause -/

theorem flash_only_while_paused_append (mid l : List Event)
    (h : ∀ e, e ∈ mid → is_flash_event e = true) :
    flash_only_while_paused false (mid ++ l) = flash_only_while_paused false l := by
  induction mid with
  | nil => rfl
  | cons e mid ih =>
    have he := h e (List.mem_cons_self e mid)
    have ih' := ih (fun e' he' => h e' (List.mem_cons_of_mem e he'))
    cases e <;> simp_all [flash_only_while_paused, is_flash_event]

theorem pause_window_ok (mid : List Event) (h : ∀ e, e ∈ mid → is_flash_event e = true) :
    flash_only_while_paused true (Event.pause :: mid ++ [Event.resume]) = true ∧
    (Event.pause :: mid ++ [Event.resume]).count Event.pause = 1 ∧
    (Event.pause :: mid ++ [Event.resume]).count Event.resume = 1 := by
  have hp : Event.pause ∉ mid := fun hm => by
    have := h _ hm
    simp [is_flash_event] at this
  have hr : Event.resume ∉ mid := fun hm => by
    have := h _ hm
    simp [is_flash_event] at this
  refine ⟨?_, ?_, ?_⟩
  · show flash_only_while_paused false (mid ++ [Event.resume]) = true
    rw [flash_only_while_paused_append mid _ h]
    rfl
  · simp [List.count_cons, List.count_append, List.count_eq_zero.2 hp]
  · simp [List.count_cons, List.count_append, List.count_eq_zero.2 hr]

theorem save_mod (cfg : Config) (s : State) (i : Nat) (t : SphereTypes) (P : Nat → Nat) :
    save_sphere_to_flash cfg s i t P = save_sphere_to_flash cfg s (i % 256) t P := by
  simp only [save_sphere_to_flash, Nat.mod_mod]

/-- The primitive calls made by the clearing loop: after the pause, only flash transactions. -/
theorem quick_clear_log (cfg : Config) (s : State) (hmax : cfg.MAX_TOTAL_SPHERES ≤ 255) :
    ∃ s' mid, quick_clear_user_spheres cfg s = Except.ok s' ∧
      s'.log = s.log ++ (Event.pause :: mid ++ [Event.resume]) ∧
      (∀ e, e ∈ mid → is_flash_event e = true) ∧
      s'.irq_running = true := by
  obtain ⟨s', hs', mid, hlog, hmid⟩ := for_u8_terminates cfg.MAX_TOTAL_SPHERES
    (quick_clear_body cfg) hmax
    (fun _ s' => ∃ mid, s'.log = s.log ++ Event.pause :: mid
      ∧ ∀ e, e ∈ mid → is_flash_event e = true) (pause_timer_IRQ s)
    ⟨[], rfl, fun e he => absurd he (List.not_mem_nil e)⟩ (by
      rintro j s' _ ⟨mid, hlog, hmid⟩
      rw [quick_clear_body_eq]
      by_cases hc : clear_cond cfg s' j
      · rw [if_pos hc]
        refine ⟨mid ++ [Event.read (get_wt_addr cfg j) 4, Event.write (get_wt_addr cfg j) 4],
          ?_, fun e he => ?_⟩
        · show s'.log ++ _ = _
          rw [hlog]
          simp
        · rcases List.mem_append.1 he with h | h
          · exact hmid e h
          · simp at h
            rcases h with rfl | rfl <;> rfl
      · rw [if_neg hc]
        refine ⟨mid ++ [Event.read (get_wt_addr cfg j) 4], ?_, fun e he => ?_⟩
        · show s'.log ++ _ = _
          rw [hlog]
          simp
        · rcases List.mem_append.1 he with h | h
          · exact hmid e h
          · simp at h
            subst h
            rfl)
  refine ⟨resume_timer_IRQ s', mid, ?_, ?_, hmid, rfl⟩
  · simp only [quick_clear_user_spheres, hs']
  · show s'.log ++ [Event.resume] = _
    rw [hlog]
    simp

/-- C14: replayed from a running interrupt, the primitive calls of `save_sphere_to_flash`
(every sphere type, every index whose cache store is in bounds), of `read_spheretype` and of
`quick_clear_user_spheres` (with at most 255 slots, so that its loop ends) issue every sector
erase, buffered write and buffered read while the interrupt is paused; the calls of
`quick_clear_user_spheres` are one pause, then flash transactions only, then one resume. -/
theorem flash_transactions_inside_pause (cfg : Config) (s : State)
    (hmax : cfg.MAX_TOTAL_SPHERES ≤ 255) :
    (∀ i t P,
      ((t = SphereTypes.SPHERE_TYPE_USER ∨ t = SphereTypes.SPHERE_TYPE_FACTORY) →
        i % 256 < cfg.MAX_TOTAL_SPHERES) →
      ∃ s' ev, save_sphere_to_flash cfg s i t P = Except.ok s' ∧ s'.log = s.log ++ ev ∧
        flash_only_while_paused true ev = true ∧
        ev = if t = SphereTypes.SPHERE_TYPE_USER ∨ t = SphereTypes.SPHERE_TYPE_FACTORY then
            [Event.pause, Event.erase (get_wt_addr cfg (i % 256)),
              Event.write (get_wt_addr cfg (i % 256)) 4,
              Event.write ((get_wt_addr cfg (i % 256) + 4) % 2 ^ 32) (WT_SIZE cfg),
              Event.resume]
          else [Event.pause, Event.erase (get_wt_addr cfg (i % 256))]) ∧
    (∀ n, ∃ ev, (read_spheretype cfg s n).2.log = s.log ++ ev ∧
      flash_only_while_paused true ev = true ∧
      ev = [Event.pause, Event.read (get_wt_addr cfg (n % 2 ^ 32)) 4, Event.resume]) ∧
    (∃ s' mid, quick_clear_user_spheres cfg s = Except.ok s' ∧
      s'.log = s.log ++ (Event.pause :: mid ++ [Event.resume]) ∧
      (∀ e, e ∈ mid → is_flash_event e = true) ∧
      flash_only_while_paused true (Event.pause :: mid ++ [Event.resume]) = true ∧
      (Event.pause :: mid ++ [Event.resume]).count Event.pause = 1 ∧
      (Event.pause :: mid ++ [Event.resume]).count Event.resume = 1) := by
  refine ⟨fun i t P hin => ?_, fun n => ?_, ?_⟩
  · rw [save_mod]
    by_cases ht : t = SphereTypes.SPHERE_TYPE_USER ∨ t = SphereTypes.SPHERE_TYPE_FACTORY
    · rw [save_valid cfg s (i % 256) t P (Nat.mod_lt _ (by decide)) (hin ht) ht]
      refine ⟨_, _, rfl, rfl, rfl, ?_⟩
      rw [if_pos ht]
    · rw [save_invalid cfg s (i % 256) t P (fun h => ht (Or.inl h)) (fun h => ht (Or.inr h))]
      refine ⟨_, _, rfl, rfl, rfl, ?_⟩
      rw [if_neg ht, Nat.mod_mod]
  · rw [read_spheretype_snd]
    exact ⟨_, rfl, rfl, rfl⟩
  · obtain ⟨s', mid, hs', hlog, hmid, _⟩ := quick_clear_log cfg s hmax
    obtain ⟨h1, h2, h3⟩ := pause_window_ok mid hmid
    exact ⟨s', mid, hs', hlog, hmid, h1, h2, h3⟩

/-- Witness of C14 on `sampleConfig`, from a flash whose sphere 0 is a USER sphere. -/
theorem flash_transactions_inside_pause_witness :
    sampleConfig.MAX_TOTAL_SPHERES ≤ 255 ∧
    (∃ s' ev, save_sphere_to_flash sampleConfig (init_sphere_flash userSphere0State) 3
        SphereTypes.SPHERE_TYPE_USER rampPayload = Except.ok s' ∧
      s'.log = (init_sphere_flash userSphere0State).log ++ ev ∧
      flash_only_while_paused true ev = true ∧
      ev = [Event.pause, Event.erase 1245184, Event.write 1245184 4,
        Event.write 1245188 28080, Event.resume]) ∧
    (∃ ev, (read_spheretype sampleConfig (init_sphere_flash userSphere0State) 0).2.log
        = (init_sphere_flash userSphere0State).log ++ ev ∧
      flash_only_while_paused true ev = true ∧
      ev = [Event.pause, Event.read 1048576 4, Event.resume]) ∧
    (∃ s' mid, quick_clear_user_spheres sampleConfig (init_sphere_flash userSphere0State)
        = Except.ok s' ∧
      s'.log = (init_sphere_flash userSphere0State).log
        ++ (Event.pause :: mid ++ [Event.resume]) ∧
      (∀ e, e ∈ mid → is_flash_event e = true) ∧
      flash_only_while_paused true (Event.pause :: mid ++ [Event.resume]) = true ∧
      (Event.pause :: mid ++ [Event.resume]).count Event.pause = 1 ∧
      (Event.pause :: mid ++ [Event.resume]).count Event.resume = 1) :=
  ⟨by decide,
   (flash_transactions_inside_pause sampleConfig (init_sphere_flash userSphere0State)
     (by decide)).1 3 SphereTypes.SPHERE_TYPE_USER rampPayload (fun _ => by decide),
   (flash_transactions_inside_pause sampleConfig (init_sphere_flash userSphere0State)
     (by decide)).2.1 0,
   (flash_transactions_inside_pause sampleConfig (init_sphere_flash userSphere0State)
     (by decide)).2.2⟩

/-! ## The select-bus preset queue -/

theorem sel_bus_queue_save_preset_noop (MAX_PRESETS : Nat) (q : SelBus) (n : Nat) :
    sel_bus_queue_save_preset MAX_PRESETS q n = q := by
  simp [sel_bus_queue_save_preset, SAVE_PRESETS_ENABLED]

theorem check_sel_bus_event_of_inv (MAX_PRESETS : Nat) (q : SelBus)
    (h : selbus_inv MAX_PRESETS q) :
    (check_sel_bus_event q).queued_preset_action = PresetAction.NO_PRESET_ACTION ∧
    (check_sel_bus_event q).queued_preset_num = q.queued_preset_num ∧
    ((q.queued_preset_action = PresetAction.NO_PRESET_ACTION
        ∧ (check_sel_bus_event q).calls = q.calls) ∨
      (q.queued_preset_action = PresetAction.RECALL_PRESET
        ∧ (check_sel_bus_event q).calls
          = q.calls ++ [PresetCall.recalled q.queued_preset_num])) := by
  obtain ⟨hns, _, _⟩ := h
  unfold check_sel_bus_event
  simp only [if_neg hns]
  cases ha : q.queued_preset_action with
  | NO_PRESET_ACTION => simp [ha]
  | STORE_PRESET => exact absurd ha hns
  | RECALL_PRESET => simp [ha]

theorem selbus_step_inv (MAX_PRESETS : Nat) (q : SelBus) (c : SelBusCall)
    (h : selbus_inv MAX_PRESETS q) : selbus_inv MAX_PRESETS (selbus_step MAX_PRESETS q c) := by
  cases c with
  | check_event =>
    obtain ⟨ha, _, hc⟩ := check_sel_bus_event_of_inv MAX_PRESETS q h
    obtain ⟨_, hst, _⟩ := h
    show selbus_inv MAX_PRESETS (check_sel_bus_event q)
    refine ⟨by rw [ha]; decide, fun n hmem => ?_, fun hr => ?_⟩
    · rcases hc with ⟨_, hc⟩ | ⟨_, hc⟩
      · rw [hc] at hmem
        exact hst n hmem
      · rw [hc] at hmem
        rcases List.mem_append.1 hmem with hm | hm
        · exact hst n hm
        · simp at hm
    · rw [ha] at hr
      exact absurd hr (by decide)
  | queue_recall n f =>
    obtain ⟨hns, hst, hrec⟩ := h
    show selbus_inv MAX_PRESETS (sel_bus_queue_recall_preset MAX_PRESETS f q n)
    unfold sel_bus_queue_recall_preset
    simp only []
    by_cases hge : n % 256 ≥ MAX_PRESETS
    · rw [if_pos hge]
      exact ⟨hns, hst, hrec⟩
    · rw [if_neg hge]
      cases hf : f (n % 256) with
      | false =>
        simp only [Bool.not_false, if_true]
        refine ⟨hns, fun m hmem => ?_, fun hr => ?_⟩
        · rcases List.mem_append.1 hmem with hm | hm
          · exact hst m hm
          · simp at hm
        · exact ⟨(hrec hr).1, List.mem_append_left _ (hrec hr).2⟩
      | true =>
        simp only [Bool.not_true, queue_recall_preset]
        have hnum : n % 256 % 2 ^ 32 = n % 256 := by omega
        refine ⟨by simp, fun m hmem => ?_, fun _ => ?_⟩
        · have hmem' : PresetCall.stored m ∈ q.calls ++ [PresetCall.checked (n % 256) true] := by
            simpa using hmem
          rcases List.mem_append.1 hmem' with hm | hm
          · exact hst m hm
          · simp at hm
        · show n % 256 % 2 ^ 32 < MAX_PRESETS
            ∧ PresetCall.checked (n % 256 % 2 ^ 32) true
              ∈ q.calls ++ [PresetCall.checked (n % 256) true]
          rw [hnum]
          exact ⟨by omega, by simp⟩
  | queue_save n =>
    show selbus_inv MAX_PRESETS (sel_bus_queue_save_preset MAX_PRESETS q n)
    rw [sel_bus_queue_save_preset_noop]
    exact h

theorem selbus_run_inv (MAX_PRESETS : Nat) (cs : List SelBusCall) :
    ∀ q, selbus_inv MAX_PRESETS q → selbus_inv MAX_PRESETS (selbus_run MAX_PRESETS cs q) := by
  induction cs with
  | nil => exact fun q h => h
  | cons c cs ih => exact fun q h => ih _ (selbus_step_inv MAX_PRESETS q c h)

theorem selbus_initial_inv (MAX_PRESETS : Nat) :
    selbus_inv MAX_PRESETS (selbus_initial MAX_PRESETS) := by
  refine ⟨by simp [selbus_initial], fun n hmem => ?_, fun hr => ?_⟩
  · simp [selbus_initial] at hmem
  · simp [selbus_initial] at hr

/-- C18: in the state reached from the initial globals by any sequence of
`sel_bus_queue_recall_preset`, `sel_bus_queue_save_preset` and `check_sel_bus_event` calls
(whatever `MAX_PRESETS` is and whatever `check_preset_filled` answers), no STORE_PRESET is
queued and none was ever dispatched, `sel_bus_queue_save_preset` leaves the queue as it is, a
queued RECALL_PRESET carries a preset number below `MAX_PRESETS` for which
`check_preset_filled` answered yes, and `check_sel_bus_event` leaves the queue at
NO_PRESET_ACTION after dispatching either nothing or exactly the one queued recall. -/
theorem selbus_queue_invariant (MAX_PRESETS : Nat) (cs : List SelBusCall) :
    selbus_inv MAX_PRESETS (selbus_run MAX_PRESETS cs (selbus_initial MAX_PRESETS)) ∧
    (∀ n, sel_bus_queue_save_preset MAX_PRESETS
        (selbus_run MAX_PRESETS cs (selbus_initial MAX_PRESETS)) n
      = selbus_run MAX_PRESETS cs (selbus_initial MAX_PRESETS)) ∧
    (check_sel_bus_event (selbus_run MAX_PRESETS cs (selbus_initial MAX_PRESETS))
      ).queued_preset_action = PresetAction.NO_PRESET_ACTION ∧
    ((check_sel_bus_event (selbus_run MAX_PRESETS cs (selbus_initial MAX_PRESETS))).calls
        = (selbus_run MAX_PRESETS cs (selbus_initial MAX_PRESETS)).calls ∨
      ((selbus_run MAX_PRESETS cs (selbus_initial MAX_PRESETS)).queued_preset_action
          = PresetAction.RECALL_PRESET ∧
        (check_sel_bus_event (selbus_run MAX_PRESETS cs (selbus_initial MAX_PRESETS))).calls
          = (selbus_run MAX_PRESETS cs (selbus_initial MAX_PRESETS)).calls
            ++ [PresetCall.recalled
              (selbus_run MAX_PRESETS cs (selbus_initial MAX_PRESETS)).queued_preset_num])) := by
  have hinv := selbus_run_inv MAX_PRESETS cs _ (selbus_initial_inv MAX_PRESETS)
  obtain ⟨ha, _, hc⟩ := check_sel_bus_event_of_inv MAX_PRESETS _ hinv
  refine ⟨hinv, fun n => sel_bus_queue_save_preset_noop MAX_PRESETS _ n, ha, ?_⟩
  rcases hc with ⟨_, hc⟩ | ⟨hr, hc⟩
  · exact Or.inl hc
  · exact Or.inr ⟨hr, hc⟩

/-! ## The quantizer's scale tables -/

theorem upd2_apply (m : Nat → Nat → ℚ) (i j : Nat) (v : ℚ) (i' j' : Nat) :
    upd2 m i j v i' j' = if i' = i ∧ j' = j then v else m i' j' := rfl

theorem midpt_inner_loop (i : Nat) (f : Nat → ℚ) (m : Nat → Nat → ℚ) (k i' j' : Nat) :
    (List.range k).foldl (fun m j => upd2 m i j (f j)) m i' j'
      = if i' = i ∧ j' < k then f j' else m i' j' := by
  induction k with
  | zero =>
    rw [List.range_zero, List.foldl_nil, if_neg (fun h => Nat.not_lt_zero j' h.2)]
  | succ k ih =>
    rw [List.range_succ, List.foldl_append, List.foldl_cons, List.foldl_nil, upd2_apply, ih]
    by_cases h1 : i' = i ∧ j' = k
    · obtain ⟨rfl, rfl⟩ := h1
      simp
    · rw [if_neg h1]
      by_cases h2 : i' = i ∧ j' < k
      · rw [if_pos h2, if_pos ⟨h2.1, by omega⟩]
      · rw [if_neg h2, if_neg (fun h => by
          rcases h with ⟨h3, h4⟩
          exact h2 ⟨h3, by
            by_contra h5
            exact h1 ⟨h3, by omega⟩⟩)]

theorem init_quantz_scale_row_eq (i : Nat) (m : Nat → Nat → ℚ) (i' j' : Nat) :
    init_quantz_scale_row i m i' j' =
      if i' = i ∧ j' = num_qtz_steps_at i - 1 then
        (qtz_scales_at i (num_qtz_steps_at i - 1) + qtz_scales_at i 0 * 2) / 2
      else if i' = i ∧ j' < num_qtz_steps_at i - 1 then
        (qtz_scales_at i j' + qtz_scales_at i (j' + 1)) / 2
      else m i' j' := by
  unfold init_quantz_scale_row
  rw [upd2_apply,
    midpt_inner_loop i (fun j => (qtz_scales_at i j + qtz_scales_at i (j + 1)) / 2) m]

theorem init_quantz_scales_loop_other (m : Nat → Nat → ℚ) (k i j : Nat) (hi : k ≤ i) :
    (List.range k).foldl (fun m i => init_quantz_scale_row i m) m i j = m i j := by
  induction k with
  | zero => rw [List.range_zero, List.foldl_nil]
  | succ k ih =>
    rw [List.range_succ, List.foldl_append, List.foldl_cons, List.foldl_nil,
      init_quantz_scale_row_eq k, if_neg (fun h => by omega), if_neg (fun h => by omega)]
    exact ih (by omega)

theorem init_quantz_scales_loop (m : Nat → Nat → ℚ) (k i j : Nat) (hi : i < k) :
    (List.range k).foldl (fun m i => init_quantz_scale_row i m) m i j
      = init_quantz_scale_row i m i j := by
  induction k with
  | zero => exact absurd hi (Nat.not_lt_zero i)
  | succ k ih =>
    rw [List.range_succ, List.foldl_append, List.foldl_cons, List.foldl_nil]
    by_cases hik : i = k
    · subst hik
      rw [init_quantz_scale_row_eq, init_quantz_scale_row_eq,
        init_quantz_scales_loop_other m i i j (Nat.le_refl i)]
    · rw [init_quantz_scale_row_eq k, if_neg (fun h => hik h.1), if_neg (fun h => hik h.1)]
      exact ih (by omega)

theorem init_quantz_scales_eq (m : Nat → Nat → ℚ) (i j : Nat) (hi : i < NUM_QTZ_SCALES) :
    init_quantz_scales m i j =
      if j = num_qtz_steps_at i - 1 then
        (qtz_scales_at i (num_qtz_steps_at i - 1) + qtz_scales_at i 0 * 2) / 2
      else if j < num_qtz_steps_at i - 1 then
        (qtz_scales_at i j + qtz_scales_at i (j + 1)) / 2
      else m i j := by
  unfold init_quantz_scales
  rw [init_quantz_scales_loop m NUM_QTZ_SCALES i j hi, init_quantz_scale_row_eq]
  simp

theorem qtz_scales_row_length (s : Nat) (h2 : s < NUM_QTZ_SCALES) :
    (qtz_scales.getD s []).length = num_qtz_steps_at s := by
  have h2' : s < 16 := h2
  interval_cases s <;> rfl

set_option maxHeartbeats 4000000 in
theorem qtz_scales_increasing (s j : Nat) (h1 : 1 ≤ s) (h2 : s < NUM_QTZ_SCALES)
    (hj : j + 1 < num_qtz_steps_at s) : qtz_scales_at s j < qtz_scales_at s (j + 1) := by
  have h2' : s < 16 := h2
  have hj' : j < num_qtz_steps_at s - 1 := by omega
  clear hj
  interval_cases s <;>
    (norm_num [num_qtz_steps_at, num_qtz_steps] at hj'
     interval_cases j <;> norm_num [qtz_scales_at, qtz_scales])

theorem qtz_scales_first (s : Nat) (h1 : 1 ≤ s) (h2 : s < NUM_QTZ_SCALES) :
    qtz_scales_at s 0 = 16.3516015625 := by
  have h2' : s < 16 := h2
  interval_cases s <;> rfl

theorem qtz_scales_last (s : Nat) (h1 : 1 ≤ s) (h2 : s < NUM_QTZ_SCALES) :
    qtz_scales_at s (num_qtz_steps_at s - 1) < 2 * qtz_scales_at s 0 := by
  have h2' : s < 16 := h2
  interval_cases s <;> norm_num [qtz_scales_at, qtz_scales, num_qtz_steps_at, num_qtz_steps]

/-- C19: over exact rationals, for every scale `s` other than NO QTZ (scale 0): the row
`qtz_scales[s]` has exactly `num_qtz_steps[s]` initialised entries, they are strictly
increasing, the first is 16.3516015625, the last is below twice the first, and the first
`num_qtz_steps[s]` midpoints stored by `init_quantz_scales` are strictly increasing, whatever
`qtz_scale_midpt` held before. -/
theorem scale_tables_well_formed (s : Nat) (m0 : Nat → Nat → ℚ)
    (h1 : 1 ≤ s) (h2 : s < NUM_QTZ_SCALES) :
    (qtz_scales.getD s []).length = num_qtz_steps_at s ∧
    (∀ j, j + 1 < num_qtz_steps_at s → qtz_scales_at s j < qtz_scales_at s (j + 1)) ∧
    qtz_scales_at s 0 = 16.3516015625 ∧
    qtz_scales_at s (num_qtz_steps_at s - 1) < 2 * qtz_scales_at s 0 ∧
    (∀ j, j + 1 < num_qtz_steps_at s →
      init_quantz_scales m0 s j < init_quantz_scales m0 s (j + 1)) := by
  have hinc := fun j hj => qtz_scales_increasing s j h1 h2 hj
  have hlast := qtz_scales_last s h1 h2
  refine ⟨qtz_scales_row_length s h2, hinc, qtz_scales_first s h1 h2, hlast, fun j hj => ?_⟩
  rw [init_quantz_scales_eq m0 s j h2, init_quantz_scales_eq m0 s (j + 1) h2]
  rw [if_neg (by omega), if_pos (by omega)]
  have ha := hinc j hj
  by_cases hend : j + 1 = num_qtz_steps_at s - 1
  · rw [if_pos hend]
    rw [← hend] at hlast ⊢
    linarith
  · rw [if_neg hend, if_pos (by omega)]
    have hb := hinc (j + 1) (by omega)
    linarith

/-- Witness of C19: the SEMITONES scale (scale 3, twelve steps). -/
theorem scale_tables_well_formed_witness :
    (1 ≤ 3 ∧ 3 < NUM_QTZ_SCALES) ∧
    (qtz_scales.getD 3 []).length = num_qtz_steps_at 3 ∧
    (∀ j, j + 1 < num_qtz_steps_at 3 → qtz_scales_at 3 j < qtz_scales_at 3 (j + 1)) ∧
    qtz_scales_at 3 0 = 16.3516015625 ∧
    qtz_scales_at 3 (num_qtz_steps_at 3 - 1) < 2 * qtz_scales_at 3 0 ∧
    (∀ j, j + 1 < num_qtz_steps_at 3 →
      init_quantz_scales (fun _ _ => 0) 3 j < init_quantz_scales (fun _ _ => 0) 3 (j + 1)) :=
  ⟨⟨by decide, by decide⟩,
   scale_tables_well_formed 3 (fun _ _ => 0) (by decide) (by decide)⟩

end SWN
